import Mathlib

/-!
Verification of the test-prep coach backend (`backend/` of the repository)
against its natural-language specification.

The development shallowly embeds the Python modules that the checked claims
touch: `config.py`, `storage/memory_store.py`, `tools/user_profile.py`,
`tools/quiz_management.py`, `agents/llm_client.py` and
`agents/orchestrator.py`.  Python dict/JSON values are modelled by the
`Value` type below; Python dictionaries that the code manipulates through
ordinary key access are modelled as association lists (`Dict`).  External
services (the OpenAI chat API, `json.loads`/`json.dumps`, `random.sample`,
`random.shuffle`, `uuid.uuid4`, `datetime.now`) are modelled as oracle
parameters, constrained only by the contracts the libraries guarantee.
Python exceptions are modelled with `Option`/`Except`; machine arithmetic
in the sources is plain (unbounded) `int` arithmetic, so `Int`/`Nat`/`ℚ`
are used directly.
-/

/-! ## JSON-like values (Python objects handled by the code) -/

mutual

/-- A Python/JSON value: `None`, booleans, numbers, strings, lists and
dicts.  Numbers are modelled as integers, which covers every value the
embedded code paths construct; non-integer numbers only arise in inputs
whose Python executions raise before producing a result relevant to the
claims. -/
inductive Value where
  | null : Value
  | bool (b : Bool) : Value
  | num (n : Int) : Value
  | str (s : String) : Value
  | arr (items : VList) : Value
  | obj (fields : VDict) : Value

/-- A list of values (the payload of `Value.arr`). -/
inductive VList where
  | nil : VList
  | cons (head : Value) (tail : VList) : VList

/-- An ordered dictionary of values (the payload of `Value.obj`);
CPython dicts preserve insertion order. -/
inductive VDict where
  | nil : VDict
  | cons (key : String) (value : Value) (tail : VDict) : VDict

end

deriving instance DecidableEq for Value, VList, VDict

def VList.toList : VList → List Value
  | .nil => []
  | .cons h t => h :: t.toList

def VList.ofList : List Value → VList
  | [] => .nil
  | h :: t => .cons h (VList.ofList t)

def VList.length : VList → Nat
  | .nil => 0
  | .cons _ t => 1 + t.length

def VDict.toList : VDict → List (String × Value)
  | .nil => []
  | .cons k v t => (k, v) :: t.toList

def VDict.ofList : List (String × Value) → VDict
  | [] => .nil
  | (k, v) :: t => .cons k v (VDict.ofList t)

/-- First binding of a key (Python dict lookup; our embedded code never
creates duplicate keys). -/
def VDict.find? : VDict → String → Option Value
  | .nil, _ => none
  | .cons k v t, key => if k = key then some v else t.find? key

/-- Build a `Value.arr` from a Lean list. -/
def vArr (l : List Value) : Value := .arr (VList.ofList l)

/-- Build a `Value.obj` from a Lean association list. -/
def vObj (l : List (String × Value)) : Value := .obj (VDict.ofList l)

/-- Python truthiness of a value (`bool(v)`). -/
def Value.truthy : Value → Bool
  | .null => false
  | .bool b => b
  | .num n => n ≠ 0
  | .str s => s ≠ ""
  | .arr .nil => false
  | .arr _ => true
  | .obj .nil => false
  | .obj _ => true

/-- `str(v)` as used in the f-strings of the embedded code.  Lists and
dicts are rendered approximately (no claim interpolates them). -/
def Value.render : Value → String
  | .null => "None"
  | .bool b => if b then "True" else "False"
  | .num n => toString n
  | .str s => s
  | .arr _ => "[...]"
  | .obj _ => "{...}"

/-- Read a value as a Python `int`-comparable number (`bool` is an `int`
subtype in Python); `none` models the `TypeError` a comparison or
arithmetic on any other type would raise. -/
def Value.asInt? : Value → Option Int
  | .num n => some n
  | .bool b => some (if b then 1 else 0)
  | _ => none

/-- `v.get(k)` on a value known to be a dict; `none` models the
`AttributeError` raised when `v` is not a dict. -/
def Value.vgetE (v : Value) (k : String) : Option Value :=
  match v with
  | .obj d => some ((d.find? k).getD .null)
  | _ => none

/-- `v.get(k, dflt)` on a value known to be a dict (`none` = raise). -/
def Value.vgetDE (v : Value) (k : String) (dflt : Value) : Option Value :=
  match v with
  | .obj d => some ((d.find? k).getD dflt)
  | _ => none

/-- `v.get(k)` where a non-dict receiver is irrelevant (guarded call
sites); returns `None` for non-dicts. -/
def Value.vget (v : Value) (k : String) : Value :=
  match v with
  | .obj d => (d.find? k).getD .null
  | _ => .null

/-! ## Top-level Python dicts as association lists -/

/-- A Python dict whose keys are strings, as the embedded functions
manipulate them (user records, question records, tool arguments, ...). -/
abbrev Dict := List (String × Value)

/-- `d.get(k)` (missing key gives `None`). -/
def dget (d : Dict) (k : String) : Value := (List.lookup k d).getD .null

/-- `d.get(k, dflt)`. -/
def dgetD (d : Dict) (k : String) (dflt : Value) : Value :=
  (List.lookup k d).getD dflt

/-- `d[k] = v` on an association list: replace the first binding of `k`
in place, or append a new binding. -/
def assocSet {β : Type} : List (String × β) → String → β → List (String × β)
  | [], k, v => [(k, v)]
  | (k', v') :: t, k, v =>
      if k' = k then (k, v) :: t else (k', v') :: assocSet t k v

/-- `d.update(u)`: assign every binding of `u` into `d`, in order. -/
def dictUpdate (d : Dict) (u : Dict) : Dict :=
  u.foldl (fun acc kv => assocSet acc kv.1 kv.2) d

/-- Convert a top-level dict to a nested `Value`. -/
def Dict.toValue (d : Dict) : Value := vObj d

/-! ## Python string/number helpers -/

/-- Contiguous-sublist test used to model Python's `in` on strings. -/
def listInfixOf : List Char → List Char → Bool
  | n, [] => n.isEmpty
  | n, h :: t => List.isPrefixOf n (h :: t) || listInfixOf n t

/-- Python's `needle in hay` on strings: contiguous substring test. -/
def pySubstr (needle hay : String) : Bool :=
  listInfixOf needle.data hay.data

/-- Python's `s.lower()` (the embedded texts are ASCII). -/
def pyLower (s : String) : String := ⟨s.data.map Char.toLower⟩

/-- Python's `s.strip()`: drop leading and trailing whitespace. -/
def pyStrip (s : String) : String :=
  ⟨((s.data.dropWhile Char.isWhitespace).reverse.dropWhile Char.isWhitespace).reverse⟩

/-- Helper for `pySplitWs`: split a character list on whitespace runs. -/
def splitWsAux : List Char → List Char → List String
  | [], acc => if acc.isEmpty then [] else [⟨acc.reverse⟩]
  | c :: rest, acc =>
      if c.isWhitespace then
        (if acc.isEmpty then [] else [⟨acc.reverse⟩]) ++ splitWsAux rest []
      else splitWsAux rest (c :: acc)

/-- Python's `s.split()` — split on whitespace runs, dropping empties. -/
def pySplitWs (s : String) : List String := splitWsAux s.data []

/-- Python's `s.title()`: uppercase every letter that follows a
non-letter, lowercase the rest. -/
def pyTitle (s : String) : String :=
  let step : (String × Bool) → Char → (String × Bool) := fun acc c =>
    let out := acc.1
    let prevAlpha := acc.2
    if c.isAlpha then
      (out.push (if prevAlpha then c.toLower else c.toUpper), true)
    else
      (out.push c, false)
  (s.data.foldl step ("", false)).1

/-- Python's `round(x, 2)` on the exact rational value of `x` (the source
rounds a float; on the rationals produced by the embedded score
arithmetic the two agree up to the float-representation hair that the
spec's "rounded to two decimal places" does not distinguish). -/
def pyRound2 (q : ℚ) : ℚ := (round (q * 100) : ℤ) / 100

/-- Truncating integer division: Python's `int(float)` conversion applied
to an exact ratio (`int(x * 0.3)` is modelled as `tdiv (x * 3) 10`). -/
def pyTruncDiv (a b : Int) : Int := Int.tdiv a b

/-! ## `storage/memory_store.py` — the in-memory store -/

namespace MemoryStore

/-- One conversation-history entry as written by
`orchestrator._save_message`. -/
structure ConvMsg where
  message_type : String
  content : String
  tool_calls : Option (List String)
  timestamp : String
deriving DecidableEq

/-- A saved quiz (`store.quizzes[quiz_id]`), as written by
`generate_adaptive_quiz`. -/
structure SavedQuiz where
  quiz_id : String
  user_id : String
  created_at : String
  questions : List Dict
deriving DecidableEq

/-- The mutable state of `MemoryStore`.  Keyed collections are ordered
association lists (CPython dicts preserve insertion order). -/
structure Store where
  users : List (String × Dict)
  questions : List Dict
  test_results : List (String × List Dict)
  quiz_responses : List (String × List Dict)
  conversation_history : List (String × List ConvMsg)
  quizzes : List (String × SavedQuiz)
deriving DecidableEq

/-- `MemoryStore.get_user`. -/
def Store.get_user (s : Store) (user_id : String) : Option Dict :=
  List.lookup user_id s.users

/-- `MemoryStore.update_user`: merge `updates` into the stored user dict,
returning whether the user existed, together with the new store. -/
def Store.update_user (s : Store) (user_id : String) (updates : Dict) :
    Bool × Store :=
  match List.lookup user_id s.users with
  | none => (false, s)
  | some u =>
      (true, { s with users := assocSet s.users user_id (dictUpdate u updates) })

/-- `MemoryStore.get_test_results`. -/
def Store.get_test_results (s : Store) (user_id : String) : List Dict :=
  (List.lookup user_id s.test_results).getD []

/-- `MemoryStore.add_quiz_response`. -/
def Store.add_quiz_response (s : Store) (user_id : String) (response : Dict) :
    Store :=
  let existing := (List.lookup user_id s.quiz_responses).getD []
  { s with quiz_responses := assocSet s.quiz_responses user_id (existing ++ [response]) }

/-- `MemoryStore.get_quiz_responses`. -/
def Store.get_quiz_responses (s : Store) (user_id : String) : List Dict :=
  (List.lookup user_id s.quiz_responses).getD []

/-- `MemoryStore.add_conversation_message`. -/
def Store.add_conversation_message (s : Store) (session_id : String)
    (message : ConvMsg) : Store :=
  let existing := (List.lookup session_id s.conversation_history).getD []
  { s with conversation_history :=
      assocSet s.conversation_history session_id (existing ++ [message]) }

/-- `MemoryStore.get_conversation_history` (keep the last `limit`). -/
def Store.get_conversation_history (s : Store) (session_id : String)
    (limit : Nat) : List ConvMsg :=
  let messages := (List.lookup session_id s.conversation_history).getD []
  match messages with
  | [] => []
  | _ => messages.drop (messages.length - limit)

/-- `MemoryStore.save_quiz`. -/
def Store.save_quiz (s : Store) (quiz_id : String) (quiz_data : SavedQuiz) :
    Store :=
  { s with quizzes := assocSet s.quizzes quiz_id quiz_data }

/-- One optional filter stage of `MemoryStore.get_questions`: when the
key is present in `filters`, keep the questions matching its value. -/
def applyKeyFilter (qs : List Dict) (o : Option Value) (p : Value → Dict → Bool) :
    List Dict :=
  match o with
  | none => qs
  | some v => qs.filter (p v)

/-- The `difficulty` filter predicate of `get_questions`: a list-valued
filter tests membership, any other value is compared with `==`. -/
def difficultyPred (v : Value) (q : Dict) : Bool :=
  match v with
  | .arr items => (items.toList).contains (dget q "difficulty")
  | _ => dget q "difficulty" = v

/-- `MemoryStore.get_questions`: apply the optional filters in source
order, then truncate to `limit`.  A filter key compares the question's
`.get` value with the filter value (`None == None` holds); a list-valued
`difficulty` filter tests membership. -/
def Store.get_questions (s : Store) (filters : Dict) (limit : Nat) :
    List Dict :=
  let qs := s.questions
  let qs := applyKeyFilter qs (List.lookup "test_type" filters)
    (fun v q => dget q "test_type" = v)
  let qs := applyKeyFilter qs (List.lookup "section" filters)
    (fun v q => dget q "section" = v)
  let qs := applyKeyFilter qs (List.lookup "topic" filters)
    (fun v q => dget q "topic" = v)
  let qs := applyKeyFilter qs (List.lookup "difficulty" filters) difficultyPred
  qs.take limit

end MemoryStore

/-! ## `config.py` — API-key validation -/

namespace Config

/-- `Settings.validate_and_strip_api_key` (`@field_validator` on
`OPENAI_API_KEY`): raise on an empty value, strip whitespace, print (not
raise) a warning when the `sk-` prefix is missing, raise when the
stripped key is shorter than 20 characters, and otherwise return the
stripped key.  `Except.error` models the raised `ValueError`, which makes
settings construction fail. -/
def validate_and_strip_api_key (v : String) : Except String String :=
  if v = "" then
    .error "OPENAI_API_KEY cannot be empty"
  else
    let api_key := pyStrip v
    -- `if not api_key.startswith('sk-')`: the source only prints a warning.
    if api_key.length < 20 then
      .error ("OPENAI_API_KEY seems too short (length: " ++
        toString api_key.length ++ "). Please check your .env file.")
    else
      .ok api_key

end Config

/-! ## `tools/user_profile.py` — profile update -/

namespace UserProfile

open MemoryStore

/-- `update_user_profile`: drop the protected keys `user_id`/`email` from
`updates`, merge the rest into the stored user, and report the outcome
dict.  Returns the tool's result dict together with the updated store. -/
def update_user_profile (s : Store) (user_id : String) (updates : Dict) :
    Dict × Store :=
  let safe_updates := updates.filter (fun kv => kv.1 ∉ ["user_id", "email"])
  let (success, s') := s.update_user user_id safe_updates
  if success then
    ([("success", .bool true),
      ("message", .str "Profile updated successfully"),
      ("updated_fields", vArr (safe_updates.map (fun kv => .str kv.1)))], s')
  else
    ([("error", .str "User not found"), ("user_id", .str user_id),
      ("success", .bool false)], s')

end UserProfile

/-! ## `tools/quiz_management.py` -/

namespace QuizManagement

open MemoryStore

/-- Python's `x in container` as used on `target_topics` (list membership,
or substring test when the container is a string; combinations that would
raise `TypeError` in Python cannot make the claims' properties fail and
are modelled as no-match). -/
def pyMem (x : Value) (container : Value) : Bool :=
  match container with
  | .arr l => l.toList.contains x
  | .str s => match x with
      | .str xs => pySubstr xs s
      | _ => false
  | _ => false

/-- Python's `v[:3]` (used for `target_topics[:3]`); `Except.error` models
the `TypeError` on an unsliceable value. -/
def pySlice3 (v : Value) : Except String Value :=
  match v with
  | .arr l => .ok (.arr (VList.ofList (l.toList.take 3)))
  | .str s => .ok (.str ⟨s.data.take 3⟩)
  | _ => .error "TypeError: value is not subscriptable"

/-- One step of the `topic_performance` accumulation: bump the
`total`/`correct` counters of a topic, inserting it on first sight
(CPython dict insertion order). -/
def bumpTopic : List (Value × Nat × Nat) → Value → Bool → List (Value × Nat × Nat)
  | [], t, c => [(t, 1, if c then 1 else 0)]
  | (t', tot, cor) :: rest, t, c =>
      if t' = t then (t', tot + 1, if c then cor + 1 else cor) :: rest
      else (t', tot, cor) :: bumpTopic rest t c

/-- The `topic_performance` dict of `generate_adaptive_quiz`: for each
recent response whose question is found in the catalog, count attempts
and correct answers per topic. -/
def topicPerformance (questions : List Dict) (recent_responses : List Dict) :
    List (Value × Nat × Nat) :=
  recent_responses.foldl
    (fun tp r =>
      match questions.find? (fun q => dget q "question_id" == dget r "question_id") with
      | none => tp
      | some q => bumpTopic tp (dget q "topic") (dget r "is_correct").truthy)
    []

/-- The `weak_topics` list: topics attempted at least 3 times with
accuracy below 70%. -/
def weakTopics (tp : List (Value × Nat × Nat)) : List Value :=
  (tp.filter (fun e => decide (3 ≤ e.2.1) &&
    decide ((e.2.2 : ℚ) / (e.2.1 : ℚ) < 7 / 10))).map (fun e => e.1)

/-- The success payload of `generate_adaptive_quiz` (its dict fields,
with the projected question entries kept as dicts).  `sectionField`
mirrors the payload's `section` key (`section` is a Lean keyword). -/
structure GenSuccess where
  message : String
  quiz_id : String
  user_id : String
  created_at : String
  total_questions : Nat
  sectionField : Value
  focus_areas : Value
  questions : List Dict
deriving DecidableEq

/-- Outcome of `generate_adaptive_quiz`: a returned error dict, or the
success payload. -/
inductive GenResult where
  | failure (payload : Dict)
  | success (r : GenSuccess)
deriving DecidableEq

/-- The candidate-pool computation of `generate_adaptive_quiz` (lines
72-89): filter by test type (and section when truthy), and when nothing
matches retry without the test-type filter. -/
def computeAllQuestions (s : Store) (test_type sectionV : Value) : List Dict :=
  let filters : Dict :=
    [("test_type", test_type)] ++
      (if sectionV.truthy then [("section", sectionV)] else [])
  let all_questions₀ := s.get_questions filters 1000
  if all_questions₀ = [] then
    s.get_questions (if sectionV.truthy then [("section", sectionV)] else []) 1000
  else all_questions₀

/-- Lines 94-101: exclude recently seen questions, unless that leaves
fewer than `quiz_size` while the full pool would suffice. -/
def computeAvailableBase (all_questions : List Dict)
    (recent_question_ids : List Value) (quiz_size : Int) : List Dict :=
  let available₀ :=
    all_questions.filter
      (fun q => ¬ recent_question_ids.contains (dget q "question_id"))
  if (available₀.length : Int) < quiz_size ∧
      quiz_size ≤ (all_questions.length : Int) then
    all_questions
  else available₀

/-- Lines 109-113: when target topics exist, restrict to questions on
them, unless that restriction is empty. -/
def prioritizeTopics (available₁ : List Dict) (target_topics : Value) :
    List Dict :=
  if target_topics.truthy then
    let prioritized :=
      available₁.filter (fun q => pyMem (dget q "topic") target_topics)
    if prioritized ≠ [] then prioritized else available₁
  else available₁

/-- Lines 63-66: the scored-response window used for topic statistics
(the last 50 responses). -/
def recentResponses (responses : List Dict) : List Dict :=
  if responses.length > 50 then responses.drop (responses.length - 50)
  else responses

/-- Lines 104-107: use explicitly requested focus topics if any,
otherwise the computed weak topics. -/
def targetTopics (focus_topics : Value) (weak_topics : List Value) : Value :=
  if focus_topics.truthy then focus_topics else vArr weak_topics

/-- The `focus_areas` field of the success payload (`target_topics[:3] if
target_topics else ["general"]`). -/
def focusAreasOf (target_topics : Value) : Except String Value :=
  if target_topics.truthy then pySlice3 target_topics
  else .ok (vArr [.str "general"])

/-- The `section` field of the success payload
(`config.get("section") or "mixed"`). -/
def sectionFieldOf (sectionV : Value) : Value :=
  if sectionV.truthy then sectionV else .str "mixed"

/-- The question-selection block of `generate_adaptive_quiz` (lines
115-147): split the available questions by difficulty, draw
`int(size*0.3)` / `int(size*0.5)` / the remainder from the easy, medium
and hard buckets (`random.sample`, clamped to the bucket size, skipped
for an empty bucket), and when short, fill up from the not-yet-selected
questions.  `Except.error` models the exception `random.sample` raises
on an out-of-range count (possible for negative sizes). -/
def selectQuestions (sample : Int → List Dict → Except String (List Dict))
    (quiz_size : Int) (available : List Dict) : Except String (List Dict) :=
  let easy := available.filter (fun q => dget q "difficulty" = .str "easy")
  let medium := available.filter (fun q => dget q "difficulty" = .str "medium")
  let hard := available.filter (fun q => dget q "difficulty" = .str "hard")
  let num_easy := pyTruncDiv (quiz_size * 3) 10
  let num_medium := pyTruncDiv (quiz_size * 5) 10
  let num_hard := quiz_size - num_easy - num_medium
  match (if easy ≠ [] then sample (min num_easy (easy.length : Int)) easy
          else .ok []),
        (if medium ≠ [] then sample (min num_medium (medium.length : Int)) medium
          else .ok []),
        (if hard ≠ [] then sample (min num_hard (hard.length : Int)) hard
          else .ok []) with
  | .ok se, .ok sm, .ok sh =>
      let selected₀ := se ++ sm ++ sh
      if (selected₀.length : Int) < quiz_size then
        let remaining := available.filter (fun q => ¬ selected₀.contains q)
        let needed := quiz_size - (selected₀.length : Int)
        match sample (min needed (remaining.length : Int)) remaining with
        | .ok sf => .ok (selected₀ ++ sf)
        | .error e => .error e
      else .ok selected₀
  | .error e, _, _ => .error e
  | _, .error e, _ => .error e
  | _, _, .error e => .error e

/--
`generate_adaptive_quiz(user_id, config)`.

`sample` models `random.sample` (for `0 ≤ k ≤ len l` the library returns
`k` distinct elements of `l`, and raises otherwise); `shuffle` models
`random.shuffle` (a permutation); `new_quiz_id` models `str(uuid.uuid4())`
and `now_iso` models `datetime.now().isoformat()`.  The `Except.error`
results model uncaught Python exceptions (`TypeError`/`ValueError` on
malformed configs), which `_execute_tool` would catch; `int(x*0.3)` /
`int(x*0.5)` are modelled by truncating division on the exact ratio.
-/
def generate_adaptive_quiz
    (sample : Int → List Dict → Except String (List Dict))
    (shuffle : List Dict → List Dict)
    (new_quiz_id now_iso : String)
    (s : Store) (user_id : String) (config : Dict) :
    Except String (GenResult × Store) :=
  match s.get_user user_id with
  | none =>
      .ok (.failure [("error", .str ("User not found: " ++ user_id)),
        ("message", .str "User profile not found. Please check the user ID.")], s)
  | some user =>
    let quiz_sizeV := dgetD config "size" (.num 20)
    let test_type := dgetD config "test_type" (dget user "test_type")
    let sectionV := dget config "section"
    let focus_topics := dgetD config "topics" (vArr [])
    let recent_responses := recentResponses (s.get_quiz_responses user_id)
    let tp := topicPerformance s.questions recent_responses
    let weak_topics := weakTopics tp
    let all_questions := computeAllQuestions s test_type sectionV
    let target_topics := targetTopics focus_topics weak_topics
    let recent_question_ids :=
      (recent_responses.drop (recent_responses.length - 20)).map
        (fun r => dget r "question_id")
    -- first numeric use of `quiz_size` (`len(available_questions) < quiz_size`)
    match quiz_sizeV.asInt? with
    | none => .error "TypeError: '<' not supported between instances"
    | some quiz_size =>
      let available₁ := computeAvailableBase all_questions recent_question_ids quiz_size
      if available₁ = [] then
        .ok (.failure [("error", .str "No questions available matching criteria"),
          ("details", .str ("Tried test_type='" ++ test_type.render ++ "', section='" ++
            sectionV.render ++ "', found " ++ toString all_questions.length ++
            " total questions"))], s)
      else
        let available := prioritizeTopics available₁ target_topics
        match selectQuestions sample quiz_size available with
        | .error e => .error e
        | .ok selected =>
          let shuffled := shuffle selected
          let s' := s.save_quiz new_quiz_id ⟨new_quiz_id, user_id, now_iso, shuffled⟩
          match focusAreasOf target_topics with
          | .error e => .error e
          | .ok focus_areas =>
          .ok (.success {
            message := "Successfully created a personalized quiz with " ++
              toString shuffled.length ++ " questions",
            quiz_id := new_quiz_id, user_id := user_id, created_at := now_iso,
            total_questions := shuffled.length,
            sectionField := sectionFieldOf sectionV,
            focus_areas := focus_areas,
            questions := shuffled.enum.map (fun iq =>
              [("question_number", .num ((iq.1 : Int) + 1)),
               ("question_id", dget iq.2 "question_id"),
               ("content", dget iq.2 "content"),
               ("options", dget iq.2 "options"),
               ("difficulty", dget iq.2 "difficulty"),
               ("topic", dget iq.2 "topic"),
               ("estimated_time", dgetD iq.2 "average_time" (.num 90))]) }, s')

/-- The result dict of `submit_quiz_response`. -/
structure SubmitResult where
  quiz_id : String
  total_questions : Nat
  correct_answers : Nat
  accuracy : ℚ
  total_time_seconds : Int
  average_time_per_question : ℚ
  performance_level : String
  results : List Dict
deriving DecidableEq

/-- The response-processing loop of `submit_quiz_response`, accumulating
the feedback entries, the correct counter, the total time, and the store
(each graded response is appended via `store.add_quiz_response`).
Responses whose question is not in the catalog are skipped (`continue`).
`Except.error` models the `TypeError` of `total_time += time_spent` on a
non-numeric `time_spent` (in Python the store mutations made so far
survive such an abort; no claim observes them). -/
def submitGo (fresh_response_id : Nat → String) (now_iso : String)
    (questions : List Dict) (user_id quiz_id : String) :
    List Dict → Nat → Store → List Dict → Nat → Int →
    Except String (List Dict × Nat × Int × Store)
  | [], _, s, results, correct, time => .ok (results, correct, time, s)
  | r :: rest, idx, s, results, correct, time =>
      let question_id := dget r "question_id"
      let user_answer := dget r "answer"
      let time_spentV := dgetD r "time_spent" (.num 0)
      match questions.find? (fun q => dget q "question_id" == question_id) with
      | none =>
          submitGo fresh_response_id now_iso questions user_id quiz_id
            rest idx s results correct time
      | some question =>
          let is_correct := user_answer == dget question "correct_answer"
          let correct' := if is_correct then correct + 1 else correct
          match time_spentV.asInt? with
          | none => .error "TypeError: unsupported operand type(s) for +="
          | some ts =>
          let stored : Dict :=
            [("response_id", .str (fresh_response_id idx)),
             ("quiz_id", .str quiz_id),
             ("question_id", question_id),
             ("user_answer", user_answer),
             ("is_correct", .bool is_correct),
             ("time_spent", time_spentV),
             ("timestamp", .str now_iso),
             ("topic", dget question "topic"),
             ("difficulty", dget question "difficulty")]
          let s' := s.add_quiz_response user_id stored
          let entry : Dict :=
            [("question_id", .str question_id.render),
             ("user_answer", user_answer),
             ("correct_answer", dget question "correct_answer"),
             ("is_correct", .bool is_correct),
             ("topic", dget question "topic"),
             ("difficulty", dget question "difficulty"),
             ("explanation", if is_correct then .null else dget question "explanation")]
          submitGo fresh_response_id now_iso questions user_id quiz_id
            rest (idx + 1) s' (results ++ [entry]) correct' (time + ts)

/--
`submit_quiz_response(user_id, quiz_id, responses)`: grade each response
against the stored correct answer, persist it, and report
`accuracy = total_correct / len(responses) * 100` rounded to two decimal
places.  `fresh_response_id` models the successive `str(uuid.uuid4())`
calls and `now_iso` the timestamps.
-/
def submit_quiz_response (fresh_response_id : Nat → String) (now_iso : String)
    (s : Store) (user_id quiz_id : String) (responses : List Dict) :
    Except String (SubmitResult × Store) :=
  match submitGo fresh_response_id now_iso s.questions user_id quiz_id
      responses 0 s [] 0 0 with
  | .error e => .error e
  | .ok (results, total_correct, total_time, s') =>
  let accuracy : ℚ :=
    if responses ≠ [] then (total_correct : ℚ) / (responses.length : ℚ) * 100 else 0
  let performance_level :=
    if accuracy ≥ 85 then "excellent"
    else if accuracy ≥ 70 then "good"
    else if accuracy ≥ 60 then "fair"
    else "needs_improvement"
  .ok ({ quiz_id := quiz_id,
         total_questions := responses.length,
         correct_answers := total_correct,
         accuracy := pyRound2 accuracy,
         total_time_seconds := total_time,
         average_time_per_question :=
           if responses ≠ [] then pyRound2 ((total_time : ℚ) / (responses.length : ℚ))
           else 0,
         performance_level := performance_level,
         results := results }, s')

end QuizManagement

/-! ## `agents/llm_client.py` — the tool-calling agent -/

namespace LlmClient

/-- One requested tool call of a chat-completion response
(`tc.id`, `tc.function.name`, `tc.function.arguments` — the arguments are
a raw JSON string). -/
structure ToolCall where
  id : String
  name : String
  arguments : String
deriving DecidableEq

/-- A conversation entry of the `messages` list handled by
`_process_with_tools` (each constructor is one of the dict shapes the
code appends). -/
inductive ChatMsg where
  | system (content : String)
  | user (content : String)
  | assistant (content : Option String) (tool_calls : List ToolCall)
  | tool (tool_call_id : String) (name : String) (content : String)
deriving DecidableEq

/-- The relevant part of one chat-completion response
(`response.choices[0]`). -/
structure LLMResponse where
  finish_reason : String
  content : Option String
  tool_calls : List ToolCall
deriving DecidableEq

/-- The function-calling schema of `_define_tools`, projected to what the
agent reads from it: each tool's `name` and the keys of its
`parameters.properties`.  (The descriptions/types of the schema are inert
data never consulted by the embedded control flow.) -/
def defineToolsParams : List (String × List String) :=
  [("get_user_profile", ["user_id"]),
   ("get_learning_history", ["user_id", "days"]),
   ("get_latest_test_results", ["user_id", "test_id"]),
   ("analyze_performance_by_topic", ["user_id", "section", "timeframe"]),
   ("identify_error_patterns", ["user_id"]),
   ("compare_progress", ["user_id", "comparison_type"]),
   ("generate_adaptive_quiz", ["user_id", "config"]),
   ("generate_study_recommendations", ["user_id"]),
   ("get_progress_summary", ["user_id"]),
   ("track_study_streak", ["user_id"]),
   ("get_question_explanation", ["question_id", "detailed"]),
   ("generate_encouragement", ["user_id", "context"]),
   ("generate_bar_chart_data", ["user_id", "test_id"])]

/-- The dispatch table of `_create_tool_map`, paired with each target
Python function's actual parameter names (from the `def` lines of the
tool modules). -/
def toolMapPythonParams : List (String × List String) :=
  [("get_user_profile", ["user_id"]),
   ("update_user_profile", ["user_id", "updates"]),
   ("get_learning_history", ["user_id", "days"]),
   ("get_latest_test_results", ["user_id", "test_id"]),
   ("analyze_performance_by_topic", ["user_id", "section", "timeframe"]),
   ("identify_error_patterns", ["user_id", "question_ids"]),
   ("compare_progress", ["user_id", "comparison_type"]),
   ("generate_bar_chart_data", ["user_id", "test_id"]),
   ("search_questions", ["filters", "limit"]),
   ("generate_adaptive_quiz", ["user_id", "config"]),
   ("submit_quiz_response", ["user_id", "quiz_id", "responses"]),
   ("generate_study_recommendations", ["user_id"]),
   ("suggest_practice_topics", ["user_id", "section"]),
   ("get_progress_summary", ["user_id"]),
   ("track_study_streak", ["user_id"]),
   ("get_question_explanation", ["question_id", "detailed"]),
   ("explain_topic_concept", ["topic", "subtopic"]),
   ("generate_encouragement", ["user_id", "context"]),
   ("celebrate_achievement", ["user_id", "achievement_type"])]

/-- `_get_function_params`: look the function up in the `_define_tools`
schema (not in the dispatch table) and return its declared property
names, `[]` when the schema has no entry. -/
def get_function_params (function_name : String) : List String :=
  match defineToolsParams.find? (fun t => t.1 == function_name) with
  | some t => t.2
  | none => []

/-- The `user_id`-injection block of `_process_with_tools` (lines
622-636): when the schema declares a `user_id` parameter for this
function, insert the caller's `user_id` if absent and overwrite a
non-matching model-supplied value. -/
def fixupArguments (user_id : String) (function_name : String) (args : Dict) :
    Dict :=
  if (get_function_params function_name).contains "user_id" then
    match List.lookup "user_id" args with
    | none => assocSet args "user_id" (.str user_id)
    | some v =>
        if v ≠ .str user_id then assocSet args "user_id" (.str user_id)
        else args
  else args

/-- `_execute_tool`: dispatch by name (unknown names give an error dict),
call the function, and convert a raised exception (`Except.error`) into
an `{"error": ...}` payload instead of propagating it. -/
def executeTool (tool_map : String → Option (Dict → Except String Value))
    (function_name : String) (arguments : Dict) : Value :=
  match tool_map function_name with
  | none => vObj [("error", .str ("Unknown function: " ++ function_name))]
  | some f =>
      match f arguments with
      | .ok result => result
      | .error e => vObj [("error", .str e)]

/-- The environment of `_process_with_tools`: the chat-completion API,
the tool dispatch table (each tool returns a value or raises), and
`json.loads` / `json.dumps`. -/
structure LoopEnv where
  llm : List ChatMsg → LLMResponse
  tool_map : String → Option (Dict → Except String Value)
  parse_json : String → Option Value
  dump_json : Value → String

/-- `json.loads(tool_call.function.arguments)` with the
`except json.JSONDecodeError: arguments = {}` fallback.  (A JSON body
that decodes to a non-dict would make the later subscript assignment
raise in Python; no embedded claim exercises that corner, and it is
modelled as the empty dict.) -/
def parsedArguments (env : LoopEnv) (tc : ToolCall) : Dict :=
  match env.parse_json tc.arguments with
  | some (.obj d) => d.toList
  | _ => []

/-- The body of `for tool_call in tool_calls` in `_process_with_tools`:
parse the arguments, force-fix `user_id`, execute the tool, record the
call, and append the serialized result as a `tool` message. -/
def executeOneCall (env : LoopEnv) (user_id : String)
    (acc : List ChatMsg × List (String × Dict)) (tc : ToolCall) :
    List ChatMsg × List (String × Dict) :=
  let arguments := fixupArguments user_id tc.name (parsedArguments env tc)
  let result := executeTool env.tool_map tc.name arguments
  let content := env.dump_json result
  (acc.1 ++ [.tool tc.id tc.name content], acc.2 ++ [(tc.name, arguments)])

/-- Execute every tool call of one round, in order. -/
def executeCalls (env : LoopEnv) (user_id : String) (msgs : List ChatMsg)
    (made : List (String × Dict)) (calls : List ToolCall) :
    List ChatMsg × List (String × Dict) :=
  calls.foldl (executeOneCall env user_id) (msgs, made)

/-- `max_iterations = 5` of `_process_with_tools`. -/
def max_iterations : Nat := 5

/-- The `while response.finish_reason == "tool_calls" and iterations <
max_iterations` loop: append the assistant message carrying the tool
calls, execute them, query the model again.  Returns the final
`iterations` counter, the last response, and the accumulated
messages and tool-call records. -/
def toolLoop (env : LoopEnv) (user_id : String) (iterations : Nat)
    (msgs : List ChatMsg) (made : List (String × Dict)) (resp : LLMResponse) :
    Nat × LLMResponse × List ChatMsg × List (String × Dict) :=
  if h : resp.finish_reason = "tool_calls" ∧ iterations < max_iterations then
    let msgs₁ := msgs ++ [.assistant resp.content resp.tool_calls]
    let stepped := executeCalls env user_id msgs₁ made resp.tool_calls
    let resp' := env.llm stepped.1
    toolLoop env user_id (iterations + 1) stepped.1 stepped.2 resp'
  else (iterations, resp, msgs, made)
termination_by max_iterations - iterations
decreasing_by omega

/-! ### `_validate_response_against_tools` -/

/-- The fixed `no_data_keywords` list. -/
def no_data_keywords : List String :=
  ["haven\x27t taken", "no test", "no results", "couldn\x27t find",
   "could not find", "didn\x27t find", "unable to find", "issue finding",
   "don\x27t have any results", "hiccup", "issue with",
   "not being recognized", "verify your user"]

/-- `any(keyword in response_lower for keyword in no_data_keywords)`. -/
def containsNoData (response : String) : Bool :=
  no_data_keywords.any (fun k => pySubstr k (pyLower response))

/-- `v.get(k, dflt)` on a parsed tool payload (qualifying payloads are
always dicts; a non-dict receiver cannot qualify). -/
def Value.vgetD (v : Value) (k : String) (dflt : Value) : Value :=
  match v with
  | .obj d => (d.find? k).getD dflt
  | _ => dflt

/-- Does a parsed `get_latest_test_results` payload qualify as "data
exists" (`result_data.get("success") and result_data.get("total_score")`
— both truthy; parse failures and non-dict payloads raise inside the
`try` and are skipped)? -/
def qualifiesTestPayload (parsed : Option Value) : Option Value :=
  match parsed with
  | some (.obj d) =>
      if ((Value.obj d).vget "success").truthy ∧
         ((Value.obj d).vget "total_score").truthy then some (.obj d) else none
  | _ => none

/-- Does a parsed `generate_adaptive_quiz` payload qualify
(`result_data.get("success") and result_data.get("quiz_id")`)? -/
def qualifiesQuizPayload (parsed : Option Value) : Option Value :=
  match parsed with
  | some (.obj d) =>
      if ((Value.obj d).vget "success").truthy ∧
         ((Value.obj d).vget "quiz_id").truthy then some (.obj d) else none
  | _ => none

/-- One step of the message scan of
`_validate_response_against_tools`: a `tool` message may update the
remembered `test_data`/`quiz_data` (the last qualifying payload wins). -/
def scanStep (parse : String → Option Value)
    (acc : Option Value × Option Value) (m : ChatMsg) :
    Option Value × Option Value :=
  match m with
  | .tool _ name content =>
      let td := if name = "get_latest_test_results" then
          (qualifiesTestPayload (parse content)).orElse (fun _ => acc.1)
        else acc.1
      let qd := if name = "generate_adaptive_quiz" then
          (qualifiesQuizPayload (parse content)).orElse (fun _ => acc.2)
        else acc.2
      (td, qd)
  | _ => acc

/-- The message scan of `_validate_response_against_tools`: walk the
conversation once, remembering the last qualifying
`get_latest_test_results` payload (`test_data`) and the last qualifying
`generate_adaptive_quiz` payload (`quiz_data`). -/
def scanToolData (parse : String → Option Value) (messages : List ChatMsg) :
    Option Value × Option Value :=
  messages.foldl (scanStep parse) (none, none)

end LlmClient

namespace LlmClient

/-- `", ".join(focus_areas)` — the payloads produced by the quiz tool
hold a list of strings; each element is rendered as the join would
(non-string elements would raise `TypeError` in Python; no qualifying
payload in the claims carries them). -/
def joinComma (v : Value) : String :=
  match v with
  | .arr l => String.intercalate ", " (l.toList.map Value.render)
  | _ => ""

/-- The corrected response built when a successful quiz payload is found
(lines 749-762). -/
def quizCorrected (quiz_data : Value) : String :=
  let total_questions := quiz_data.vget "total_questions"
  let focus_areas := Value.vgetD quiz_data "focus_areas" (vArr [.str "general"])
  let sectionV := Value.vgetD quiz_data "section" (.str "mixed")
  let r := "I\x27ve created a personalized quiz for you with " ++
    total_questions.render ++ " questions! "
  let r := r ++ (if sectionV ≠ .str "mixed" then
    "It focuses on " ++ sectionV.render ++ ". " else "")
  let r := r ++ (if focus_areas.truthy ∧ focus_areas ≠ vArr [.str "general"] then
    "The quiz covers: " ++ joinComma focus_areas ++ ". " else "")
  r ++ "Ready to start when you are!"

/-- The per-section lines of the corrected test-results response;
`Except.error` models the `AttributeError` of `.get` on a non-dict
section entry. -/
def sectionBreakdownLines : List (String × Value) → Except String String
  | [] => .ok ""
  | (name, data) :: rest => do
      let score ← match data.vgetE "score" with
        | some v => Except.ok v
        | none => Except.error "AttributeError: get"
      let percentile ← match data.vgetE "percentile" with
        | some v => Except.ok v
        | none => Except.error "AttributeError: get"
      let restLines ← sectionBreakdownLines rest
      .ok (pyTitle name ++ ": " ++ score.render ++ " points (" ++
        percentile.render ++ "th percentile)\n" ++ restLines)

/-- The corrected response built when a successful test payload (and no
quiz payload) is found (lines 765-784); `Except.error` models the
`AttributeError` of `.items()` on a non-dict `sections` value. -/
def testCorrected (test_data : Value) : Except String String := do
  let total_score := test_data.vget "total_score"
  let sections := Value.vgetD test_data "sections" (vObj [])
  let r := "I found your latest test results! You scored " ++
    total_score.render ++ " total. "
  if sections.truthy then do
    let entries ← match sections with
      | .obj d => Except.ok d.toList
      | _ => Except.error "AttributeError: items"
    let lines ← sectionBreakdownLines entries
    .ok (r ++ "Here\x27s your breakdown:\n\n" ++ lines ++
      "\nYour strongest areas are Reading and Writing. Let\x27s focus on improving your Math sections (Algebra and Geometry) to boost your overall score!")
  else
    .ok r

/-- `_validate_response_against_tools`: when the model's text claims "no
data" but a tool message of this turn carries a qualifying success
payload, replace the text with a template built from the payload (quiz
payloads take precedence); otherwise return the text unchanged.
`Except.error` models an uncaught exception while building the
replacement. -/
def validateResponseAgainstTools (parse : String → Option Value)
    (response : String) (messages : List ChatMsg) : Except String String :=
  if containsNoData response then
    let scanned := scanToolData parse messages
    match scanned.2 with
    | some quiz_data => .ok (quizCorrected quiz_data)
    | none =>
        match scanned.1 with
        | some test_data => testCorrected test_data
        | none => .ok response
  else
    .ok response

/-- The full result of `_process_with_tools`: the loop's iteration count,
the validated final response (`Except.error` models the `AttributeError`
of lower-casing a `None` final content, or an exception of the
validator), and the final conversation/tool-call records. -/
structure ProcessToolsResult where
  iterations : Nat
  final : Except String String
  messages : List ChatMsg
  tool_calls_made : List (String × Dict)

/-- `_process_with_tools`: initial model call, the tool loop, then the
validation pass over the final content. -/
def process_with_tools (env : LoopEnv) (user_id : String)
    (messages : List ChatMsg) : ProcessToolsResult :=
  let response := env.llm messages
  let out := toolLoop env user_id 0 messages [] response
  let final := match out.2.1.content with
    | none => Except.error "AttributeError: NoneType object has no attribute lower"
    | some c => validateResponseAgainstTools env.parse_json c out.2.2.1
  ⟨out.1, final, out.2.2.1, out.2.2.2⟩

/-! ### `process_message` — top-level error mapping -/

/-- The exception classes caught by `process_message`, in the order of
its `except` clauses (`AuthenticationError`, `APIError`, `OpenAIError`,
`Exception`). -/
inductive ApiException where
  | authentication (status_code : Option Int) (msg : String)
  | api (status_code : Option Int) (msg : String)
  | openai_error (msg : String)
  | unknown (msg : String)
deriving DecidableEq

/-- The dict returned by `process_message`. -/
structure PMResult where
  message : String
  error : Option String
  error_code : Option Value
  tool_calls_made : Nat
  tools_used : List String
deriving DecidableEq

/-- `process_message`: run the tool-calling pipeline once and wrap its
outcome.  `attempts n` is the outcome the `n`-th call of the pipeline
would have (a response message plus the names of the tools used, or a
raised exception); the source performs exactly one call — index 0 — and
maps each exception class to a fixed apologetic message plus
machine-readable code, with no retry. -/
def process_message
    (attempts : Nat → Except ApiException (String × List String)) : PMResult :=
  match attempts 0 with
  | .ok (response, tools) =>
      { message := response, error := none, error_code := none,
        tool_calls_made := tools.length, tools_used := tools }
  | .error (.authentication sc msg) =>
      { message := "I apologize, but there\x27s an authentication issue with the API. Please check your API key configuration in the .env file.",
        error := some msg, error_code := some (.num (sc.getD 401)),
        tool_calls_made := 0, tools_used := [] }
  | .error (.api sc msg) =>
      { message := "I encountered an API error (code " ++
          (match sc with | some c => toString c | none => "N/A") ++
          "). Please try again later.",
        error := some msg,
        error_code := some (match sc with | some c => .num c | none => .str "N/A"),
        tool_calls_made := 0, tools_used := [] }
  | .error (.openai_error msg) =>
      { message := "I encountered an error with the AI service. Please try again.",
        error := some msg, error_code := none,
        tool_calls_made := 0, tools_used := [] }
  | .error (.unknown msg) =>
      { message := "I apologize, but I encountered an error. Let\x27s try that again.",
        error := some msg, error_code := none,
        tool_calls_made := 0, tools_used := [] }

end LlmClient

/-! ## `agents/orchestrator.py` — conversation orchestrator -/

namespace Orchestrator

open MemoryStore LlmClient

/-- One formatted history entry fed to the model
(`{"role": ..., "content": ...}`). -/
structure RoleMsg where
  role : String
  content : String
deriving DecidableEq

/--
The orchestrator's environment: the tool-layer functions it imports
(`get_user_profile`, `get_progress_summary`, `get_latest_test_results`),
the agent's `process_message`, `uuid.uuid4`/`datetime.now`, and the
`DEBUG` setting.  The two UI assemblers `_create_structured_response`
(lines 814-934) and `_add_contextual_quick_replies` (lines 363-597) are
repository code kept abstract here: every claim settled below holds for
all behaviours of these two methods, so abstracting them only strengthens
the theorems (the welcome-screen builders, which the claims do inspect,
are embedded in full below).
-/
structure OrchEnv where
  get_user_profile : String → Value
  get_progress_summary : String → Value
  get_latest_test_results : Value → Value
  process_message : String → String → List RoleMsg → PMResult
  create_structured_response : String → List String → String → Value
  add_contextual_quick_replies : String → Value → String → List String → List RoleMsg → Value
  new_session_uuid : String
  now_iso : String
  debug : Bool

/-- `self.max_context_turns = 10`. -/
def max_context_turns : Nat := 10

/-- `_get_formatted_history`: last 10 stored messages, keeping only
user/assistant entries, as role/content pairs. -/
def getFormattedHistory (s : Store) (session_id : String) : List RoleMsg :=
  let history := s.get_conversation_history session_id max_context_turns
  (history.filter (fun m => m.message_type ∈ ["user", "assistant"])).map
    (fun m => ⟨m.message_type, m.content⟩)

/-- `_save_message`. -/
def saveMessage (env : OrchEnv) (s : Store) (session_id role content : String)
    (tool_calls : Option (List String)) : Store :=
  s.add_conversation_message session_id ⟨role, content, tool_calls, env.now_iso⟩

/-- The `analysis_keywords` of `handle_message`. -/
def analysis_keywords : List String :=
  ["analyze", "analysis", "chart", "visual", "graph", "breakdown",
   "detailed analysis", "show me"]

/-- `_force_tool_usage_message`. -/
def forceToolUsageMessage (user_id message : String) : String :=
  message ++ "\n\n[SYSTEM: User explicitly requested analysis. You MUST call these tools:\n1. get_latest_test_results(user_id=\x27" ++
    user_id ++ "\x27) - MANDATORY to get test scores\n2. generate_bar_chart_data(user_id=\x27" ++
    user_id ++ "\x27) - MANDATORY to create visualizations\n3. analyze_performance_by_topic(user_id=\x27" ++
    user_id ++ "\x27, section=\x27<appropriate_section>\x27) - Call for relevant sections\n\nDO NOT respond without calling these tools. When get_latest_test_results returns data with \x27success\x27: true and \x27total_score\x27, that means DATA EXISTS - you MUST acknowledge and use it. NEVER say \x27no test results\x27 or \x27haven\x27t taken\x27 when tools return actual data.]"

/-- `_identify_follow_ups` (keeps the first two suggestions). -/
def identifyFollowUps (tools_used : List String) : List String :=
  ((if tools_used.contains "analyze_performance_by_topic" then
      ["Would you like me to create a practice quiz focused on your weak areas?"]
    else []) ++
   (if tools_used.contains "generate_adaptive_quiz" then
      ["Ready to start the quiz whenever you are!"]
    else []) ++
   (if tools_used.contains "get_latest_test_results" then
      ["Want to see how this compares to your previous attempts?"]
    else []) ++
   (if tools_used.contains "get_progress_summary" then
      ["Would you like specific recommendations to improve further?"]
    else [])).take 2

/--
`_create_welcome_message(profile, progress)`.  `latest_fn` is the
imported `get_latest_test_results`.  The `Option` models the exceptions
this method can raise (indexing `split()[0]` of a blank name, comparing
a non-numeric `days_until_test`, `.get` on non-dict data) — all caught
by `handle_message`'s blanket `except`.
-/
def createWelcomeMessage (latest_fn : Value → Value) (profile progress : Value) :
    Option String := do
  let nameV ← profile.vgetDE "name" (.str "there")
  let nameStr ← match nameV with | .str s => some s | _ => none
  let name ← (pySplitWs nameStr).head?
  let test_type ← profile.vgetDE "test_type" (.str "ABC Certification")
  let _target ← profile.vgetE "target_score"
  let baseline ← profile.vgetE "baseline_score"
  let user_idV ← profile.vgetE "user_id"
  let latest_test : Value := if user_idV.truthy then latest_fn user_idV else .null
  let cs1 ← if latest_test.truthy then do
      let e ← latest_test.vgetE "error"
      if e.truthy then pure Value.null else latest_test.vgetE "total_score"
    else pure Value.null
  let cs2 ← if ¬ cs1.truthy ∧ progress.truthy then do
      let pe ← progress.vgetE "error"
      if pe.truthy then pure cs1
      else do
        let a ← progress.vgetE "current_score"
        let b ← progress.vgetE "latest_score"
        pure (if a.truthy then a else b)
    else pure cs1
  let current_score := if cs2.truthy then cs2 else baseline
  let scored ← if latest_test.truthy then do
      let e ← latest_test.vgetE "error"
      pure (!e.truthy && current_score.truthy)
    else pure false
  if scored then
    pure ("Hey " ++ name ++ "!" ++ "\nWell done on that last exam!" ++
      "\nYou scored a " ++ current_score.render ++
      " which is a marked improvement but I think there\x27s still room to grow." ++
      "\nYou got this! 😉")
  else do
    let gd ← if profile.vget "days_until_test" ≠ Value.null then do
        let d ← (profile.vget "days_until_test").asInt?
        pure (some d)
      else pure none
    let greeting := match gd with
      | some d =>
          if d ≤ 0 then "Hey " ++ name ++ "!\n\nYay! It\x27s test day! 🎉"
          else if d ≤ 7 then
            "Hey " ++ name ++ "! 👋\n\nYour " ++ test_type.render ++ " is coming up soon!"
          else if d ≤ 30 then
            "Hey " ++ name ++ "! 👋\n\nGreat to see you preparing for your " ++
              test_type.render ++ "!"
          else
            "Hey " ++ name ++ "! 👋\n\nWelcome back to your " ++ test_type.render ++ " prep!"
      | none => "Hey " ++ name ++ "! 👋\n\nReady to ace your " ++ test_type.render ++ "?"
    let encouragement := match gd with
      | some d =>
          if d ≤ 0 then
            "\n\nAre you excited? I hope you\x27re feeling confident and ready to show what you know! 💪"
          else if d ≤ 7 then
            "\n\nOnly " ++ toString d ++ " days to go! Let\x27s make sure you\x27re fully prepared."
          else if d ≤ 30 then
            "\n\nYou have " ++ toString d ++ " days to prepare. We\x27ve got this! 🎯"
          else ""
      | none => ""
    pure (greeting ++ encouragement)

/-- `v[:3]` for the weak/strong area lists (`none` = unsliceable). -/
def pyTake3 (v : Value) : Option Value :=
  match v with
  | .arr l => some (.arr (VList.ofList (l.toList.take 3)))
  | .str s => some (.str ⟨s.data.take 3⟩)
  | _ => none

/-- The current-score cascade of `_create_welcome_ui_elements` (lines
291-311): prefer the latest test score, then the progress summary, then
the baseline. -/
def uiCurrentScore (latest_fn : Value → Value) (profile progress : Value) :
    Option Value := do
  let user_idV ← profile.vgetE "user_id"
  let baseline ← profile.vgetE "baseline_score"
  let cs1 ← if user_idV.truthy then do
      let latest_test := latest_fn user_idV
      if latest_test.truthy then do
        let e ← latest_test.vgetE "error"
        if e.truthy then pure Value.null else latest_test.vgetE "total_score"
      else pure Value.null
    else pure Value.null
  let cs2 ← if !cs1.truthy then do
      let pe ← progress.vgetE "error"
      if !pe.truthy then do
        let a ← progress.vgetE "current_score"
        let b ← progress.vgetE "latest_score"
        pure (if a.truthy then a else b)
      else pure cs1
    else pure cs1
  pure (if cs2.truthy then cs2 else baseline)

/-- `days_until_test if days_until_test and days_until_test > 0 else
None` (line 320). -/
def uiDaysCard (daysV : Value) : Option Value :=
  if daysV.truthy then do
      let d ← daysV.asInt?
      pure (if 0 < d then daysV else Value.null)
  else pure Value.null

/-- The `profile_overview` card (lines 313-323). -/
def uiProfileCard (latest_fn : Value → Value) (profile progress : Value) :
    Option Value := do
  let test_type ← profile.vgetDE "test_type" (.str "N/A")
  let target_score ← profile.vgetDE "target_score" (.str "N/A")
  let daysV ← profile.vgetE "days_until_test"
  let current_score ← uiCurrentScore latest_fn profile progress
  let days_card ← uiDaysCard daysV
  let baseline_card ← profile.vgetDE "baseline_score" (.str "N/A")
  let study_hours ← profile.vgetDE "study_hours_per_week" (.str "N/A")
  pure (vObj [("type", .str "profile_overview"),
    ("data", vObj [("test_type", test_type), ("target_score", target_score),
      ("baseline_score", baseline_card), ("current_score", current_score),
      ("days_until_test", days_card), ("study_hours_per_week", study_hours)])])

/-- The circular-progress chart of the welcome screen (lines 331-336). -/
def uiProgressChart (tq oa : Value) : Value :=
  vObj [("type", .str "circular_progress"), ("title", .str "Overall Accuracy"),
    ("value", oa), ("label", .str (tq.render ++ " questions attempted"))]

/-- The progress card of the welcome screen (lines 343-351). -/
def uiProgressCard (tq oa wt st : Value) : Value :=
  vObj [("type", .str "progress_card"),
    ("data", vObj [("overall_accuracy", oa), ("total_questions", tq),
      ("weak_areas", wt), ("strong_areas", st)])]

/-- The progress chart/card block of `_create_welcome_ui_elements`
(lines 326-351), returning (charts, extra cards). -/
def uiProgressElems (progress : Value) : Option (List Value × List Value) := do
  let pe ← progress.vgetE "error"
  if !pe.truthy then do
    let tq ← progress.vgetDE "total_questions_attempted" (.num 0)
    let oa ← progress.vgetDE "overall_accuracy" (.num 0)
    let tqn ← tq.asInt?
    if 0 < tqn then do
      let weak ← progress.vgetDE "weak_areas" (vArr [])
      let strong ← progress.vgetDE "strong_areas" (vArr [])
      if weak.truthy || strong.truthy then do
        let wt ← pyTake3 weak
        let st ← pyTake3 strong
        pure ([uiProgressChart tq oa], [uiProgressCard tq oa wt st])
      else pure ([uiProgressChart tq oa], [])
    else pure ([], [])
  else pure ([], [])

/-- The four fixed welcome-screen quick replies (lines 354-359). -/
def welcomeQuickReplies : List Value :=
  [vObj [("text", .str "📊 Analyze my last exam"), ("action", .str "analyze_exam")],
   vObj [("text", .str "💰 How can I improve my scores?"), ("action", .str "improve_scores")],
   vObj [("text", .str "🤔 How am I doing now?"), ("action", .str "check_progress")],
   vObj [("text", .str "📝 Come up with similar questions"), ("action", .str "create_quiz")]]

/-- `_create_welcome_ui_elements(profile, progress)`; `Option` as for
`createWelcomeMessage`. -/
def createWelcomeUiElements (latest_fn : Value → Value) (profile progress : Value) :
    Option Value := do
  let profile_card ← uiProfileCard latest_fn profile progress
  let elems ← uiProgressElems progress
  pure (vObj [("cards", vArr ([profile_card] ++ elems.2)),
    ("quick_replies", vArr welcomeQuickReplies),
    ("charts", vArr elems.1)])

/-- The response envelope of `handle_message` (the error path carries no
`ui_elements` key, hence the `Option`). -/
structure HMResult where
  session_id : String
  response : String
  error : Option String
  follow_ups : List String
  tools_used : List String
  ui_elements : Option Value
  metadata : Value
deriving DecidableEq

/-- Outcome of `_handle_session_start`: a returned envelope or an
exception escaping to `handle_message`'s `except` block; both carry the
store state and whether `process_message` was invoked. -/
inductive SessionStartOut where
  | ok (result : HMResult) (s : Store) (llm_invoked : Bool)
  | exc (msg : String) (s : Store) (llm_invoked : Bool)

/-- `_handle_session_start`: fetch the profile; on a profile error fall
through to the model path (`process_message`); otherwise build and return
the templated welcome response without invoking the model. -/
def handleSessionStart (env : OrchEnv) (s : Store)
    (user_id session_id message : String) : SessionStartOut :=
  let profile := env.get_user_profile user_id
  if (profile.vget "error").truthy then
    let s₁ := saveMessage env s session_id "user" message none
    let resp := env.process_message user_id message []
    let s₂ := saveMessage env s₁ session_id "assistant" resp.message none
    .ok { session_id := session_id, response := resp.message, error := none,
          follow_ups := [], tools_used := resp.tools_used,
          ui_elements := some (env.create_structured_response resp.message resp.tools_used user_id),
          metadata := vObj [("timestamp", .str env.now_iso),
            ("tool_calls_made", .num (resp.tool_calls_made : Int))] }
      s₂ true
  else
    let progress := env.get_progress_summary user_id
    match createWelcomeMessage env.get_latest_test_results profile progress with
    | none => .exc "list index out of range" s false
    | some welcome =>
      let s₁ := saveMessage env s session_id "assistant" welcome none
      match createWelcomeUiElements env.get_latest_test_results profile progress with
      | none => .exc "TypeError" s₁ false
      | some ui =>
        .ok { session_id := session_id, response := welcome, error := none,
              follow_ups := ["What would you like to work on today?"],
              tools_used := ["get_user_profile", "get_progress_summary"],
              ui_elements := some ui,
              metadata := vObj [("timestamp", .str env.now_iso),
                ("tool_calls_made", .num 2), ("is_welcome", .bool true)] }
          s₁ false

/-- `handle_message(user_id, message, session_id)`: route a fresh session
with empty history to `_handle_session_start`, otherwise save the user
message, optionally augment it with the forced-tool-usage block, and run
the model path.  The third component records whether
`llm_agent.process_message` was invoked during the call. -/
def handle_message (env : OrchEnv) (s : Store) (user_id message : String)
    (session_id : Option String) : HMResult × Store × Bool :=
  let is_new_session := session_id.isNone
  let sid := session_id.getD env.new_session_uuid
  let history := getFormattedHistory s sid
  if is_new_session ∧ history.length = 0 then
    match handleSessionStart env s user_id sid message with
    | .ok r s' llm => (r, s', llm)
    | .exc e s' llm =>
        let s'' := saveMessage env s' sid "system" ("Error: " ++ e) none
        ({ session_id := sid,
           response := "I apologize, but I encountered an issue. Could you please rephrase your question?",
           error := some (if env.debug then e else "An error occurred"),
           follow_ups := [], tools_used := [], ui_elements := none,
           metadata := vObj [("timestamp", .str env.now_iso), ("error", .bool true)] },
         s'', llm)
  else
    let s₁ := saveMessage env s sid "user" message none
    let is_explicit_analysis := analysis_keywords.any (fun k => pySubstr k (pyLower message))
    let enriched := if is_explicit_analysis then forceToolUsageMessage user_id message
      else message
    let resp := env.process_message user_id enriched history
    let s₂ := saveMessage env s₁ sid "assistant" resp.message (some resp.tools_used)
    let follow_ups := identifyFollowUps resp.tools_used
    let structured := env.create_structured_response resp.message resp.tools_used user_id
    let structured := env.add_contextual_quick_replies resp.message structured message
      resp.tools_used history
    ({ session_id := sid, response := resp.message, error := none,
       follow_ups := follow_ups, tools_used := resp.tools_used,
       ui_elements := some structured,
       metadata := vObj [("timestamp", .str env.now_iso),
         ("tool_calls_made", .num (resp.tool_calls_made : Int))] },
     s₂, true)

end Orchestrator

/-! ## Remaining specification-side definitions used by the theorems -/

/-- The exception message carried by an `ApiException`. -/
def LlmClient.ApiException.exmsg : LlmClient.ApiException → String
  | .authentication _ m => m
  | .api _ m => m
  | .openai_error m => m
  | .unknown m => m

/-- The fixed user-facing apology `process_message` returns for each
exception class. -/
def LlmClient.apologyMessage : LlmClient.ApiException → String
  | .authentication _ _ =>
      "I apologize, but there\x27s an authentication issue with the API. Please check your API key configuration in the .env file."
  | .api sc _ =>
      "I encountered an API error (code " ++
        (match sc with | some c => toString c | none => "N/A") ++
        "). Please try again later."
  | .openai_error _ => "I encountered an error with the AI service. Please try again."
  | .unknown _ => "I apologize, but I encountered an error. Let\x27s try that again."

/-- The machine-readable error code `process_message` attaches for each
exception class. -/
def LlmClient.apologyCode : LlmClient.ApiException → Option Value
  | .authentication sc _ => some (.num (sc.getD 401))
  | .api (some c) _ => some (.num c)
  | .api none _ => some (.str "N/A")
  | .openai_error _ => none
  | .unknown _ => none

/-- The number `k` of claim C5: how many submitted responses carry an
answer equal to the stored correct answer of the question they reference
(responses referencing an unknown question have no stored correct
answer). -/
def countMatching (questions : List Dict) (responses : List Dict) : Nat :=
  responses.countP (fun r =>
    match questions.find? (fun q => dget q "question_id" == dget r "question_id") with
    | some q => dget r "answer" == dget q "correct_answer"
    | none => false)

/-- A throwing tool and an environment dispatching to it, for the C7
witness. -/
def wEnv7 : LlmClient.LoopEnv :=
  { llm := fun _ => ⟨"stop", some "done", []⟩,
    tool_map := fun n =>
      if n = "get_user_profile" then some (fun _ => .error "kaboom") else none,
    parse_json := fun _ => none,
    dump_json := fun _ => "serialized-error" }

/-- A model stub that always requests tool calls, for the C2 witness. -/
def wEnvStub : LlmClient.LoopEnv :=
  { llm := fun _ => ⟨"tool_calls", none, []⟩,
    tool_map := fun _ => none,
    parse_json := fun _ => none,
    dump_json := fun _ => "" }

/-- A conversation entry that the validator's scan recognizes as a
successful `get_latest_test_results` payload. -/
def isQualifyingTestMsg (parse : String → Option Value) : LlmClient.ChatMsg → Prop
  | .tool _ name content =>
      name = "get_latest_test_results" ∧
      (LlmClient.qualifiesTestPayload (parse content)).isSome
  | _ => False

/-- The tool message of the C3 counterexample: a *successful*
`get_latest_test_results` payload (`success` true, `total_score` 800,
section breakdown as stored) whose section name contains a
`no_data_keywords` phrase. -/
def ce3parse : String → Option Value := fun s =>
  if s = "PAYLOAD0" then
    some (vObj [("success", .bool true), ("total_score", .num 800),
      ("sections", vObj [("hiccup drill",
        vObj [("score", .num 10), ("percentile", .num 5)])])])
  else none

/-- The conversation of the C3 counterexample. -/
def ce3msgs : List LlmClient.ChatMsg :=
  [.tool "c1" "get_latest_test_results" "PAYLOAD0"]

/-- The qualifying payload of the C3 witness (clean section names). -/
def w3parse : String → Option Value := fun s =>
  if s = "PAYLOAD1" then
    some (vObj [("success", .bool true), ("total_score", .num 800),
      ("sections", vObj [("reading",
        vObj [("score", .num 240), ("percentile", .num 85)])])])
  else none

/-- The conversation of the C3 witness. -/
def w3msgs : List LlmClient.ChatMsg :=
  [.tool "c1" "get_latest_test_results" "PAYLOAD1"]

/-- Environment of the C6 counterexample: the profile lookup fails (the
user does not exist), every other dependency is inert. -/
def ce6env : Orchestrator.OrchEnv :=
  { get_user_profile := fun uid =>
      vObj [("error", .str "User not found"), ("user_id", .str uid)],
    get_progress_summary := fun _ => vObj [("error", .str "User not found")],
    get_latest_test_results := fun _ => Value.null,
    process_message := fun _ _ _ =>
      { message := "model reply", error := none, error_code := none,
        tool_calls_made := 0, tools_used := [] },
    create_structured_response := fun _ _ _ => vObj [],
    add_contextual_quick_replies := fun _ v _ _ _ => v,
    new_session_uuid := "sess-1",
    now_iso := "2026-10-12T00:00:00",
    debug := true }

/-- Empty store for the C6 counterexample. -/
def ce6store : MemoryStore.Store := ⟨[], [], [], [], [], []⟩

/-- Environment of the C6 witness: an existing profile, no test results,
a progress summary carrying an error. -/
def w6env : Orchestrator.OrchEnv :=
  { get_user_profile := fun _ =>
      vObj [("user_id", .str "u1"), ("name", .str "Suzy Q"),
        ("test_type", .str "SAT"), ("target_score", .num 1600),
        ("baseline_score", .num 1200), ("days_until_test", .num 90)],
    get_progress_summary := fun _ => vObj [("error", .str "User not found")],
    get_latest_test_results := fun _ => vObj [("error", .str "No test results")],
    process_message := fun _ _ _ =>
      { message := "model reply", error := none, error_code := none,
        tool_calls_made := 0, tools_used := [] },
    create_structured_response := fun _ _ _ => vObj [],
    add_contextual_quick_replies := fun _ v _ _ _ => v,
    new_session_uuid := "sess-2",
    now_iso := "2026-10-12T00:00:00",
    debug := true }

/-- Empty store for the C6 witness. -/
def w6store : MemoryStore.Store := ⟨[], [], [], [], [], []⟩

/-- The welcome text the C6 witness environment produces. -/
def w6welcome : String := "Hey Suzy! 👋\n\nWelcome back to your SAT prep!"

/-- The welcome-screen UI elements the C6 witness environment produces. -/
def w6ui : Value :=
  vObj [("cards", vArr [vObj [("type", .str "profile_overview"),
    ("data", vObj [("test_type", .str "SAT"), ("target_score", .num 1600),
      ("baseline_score", .num 1200), ("current_score", .num 1200),
      ("days_until_test", .num 90), ("study_hours_per_week", .str "N/A")])]]),
    ("quick_replies", vArr Orchestrator.welcomeQuickReplies),
    ("charts", vArr [])]

/-- The witness environment for the degenerate welcome branch of C6: the
profile lookup succeeds but the stored name is blank, so
`_create_welcome_message` raises (`"".split()[0]`) and `handle_message`
answers with the apology envelope — still without the model. -/
def w6blankEnv : Orchestrator.OrchEnv :=
  { get_user_profile := fun _ =>
      vObj [("user_id", .str "u1"), ("name", .str ""),
        ("test_type", .str "SAT"), ("target_score", .num 1600),
        ("baseline_score", .num 1200), ("days_until_test", .num 90)],
    get_progress_summary := fun _ => vObj [("error", .str "User not found")],
    get_latest_test_results := fun _ => vObj [("error", .str "No test results")],
    process_message := fun _ _ _ =>
      { message := "model reply", error := none, error_code := none,
        tool_calls_made := 0, tools_used := [] },
    create_structured_response := fun _ _ _ => vObj [],
    add_contextual_quick_replies := fun _ v _ _ _ => v,
    new_session_uuid := "sess-3",
    now_iso := "2026-10-12T00:00:00",
    debug := true }

/-- A `random.sample` model for the C4 analysis: draw the first `k`
elements (a valid sample) and raise `ValueError` out of range, exactly
as the library contract prescribes. -/
def ce4sample : Int → List Dict → Except String (List Dict) :=
  fun k l =>
    if 0 ≤ k ∧ k ≤ (l.length : Int) then .ok (l.take k.toNat)
    else .error "ValueError: sample larger than population or is negative"

/-- A one-user, one-question store whose single question has difficulty
`"extreme"`, so that every difficulty bucket is empty. -/
def ce4store : MemoryStore.Store :=
  { users := [("u", [("user_id", .str "u")])],
    questions := [[("question_id", .str "q1"), ("difficulty", .str "extreme")]],
    test_results := [], quiz_responses := [], conversation_history := [],
    quizzes := [] }

/-- The success payload `generate_adaptive_quiz` produces on `ce4store`
for requested size `-1`: an *empty* quiz reported as a success. -/
def ce4success : QuizManagement.GenSuccess :=
  { message := "Successfully created a personalized quiz with 0 questions",
    quiz_id := "qz", user_id := "u", created_at := "t",
    total_questions := 0, sectionField := .str "mixed",
    focus_areas := vArr [.str "general"], questions := [] }

/-- A store with one user and an easy / medium / hard question with
pairwise distinct ids. -/
def w4store : MemoryStore.Store :=
  { users := [("u", [("user_id", .str "u")])],
    questions :=
      [[("question_id", .str "q1"), ("difficulty", .str "easy")],
       [("question_id", .str "q2"), ("difficulty", .str "medium")],
       [("question_id", .str "q3"), ("difficulty", .str "hard")]],
    test_results := [], quiz_responses := [], conversation_history := [],
    quizzes := [] }

/-- The payload `generate_adaptive_quiz` produces on `w4store` for
requested size `2` with the take-based sampler and identity shuffle. -/
def w4success : QuizManagement.GenSuccess :=
  { message := "Successfully created a personalized quiz with 2 questions",
    quiz_id := "qz", user_id := "u", created_at := "t",
    total_questions := 2, sectionField := .str "mixed",
    focus_areas := vArr [.str "general"],
    questions :=
      [[("question_number", .num 1), ("question_id", .str "q2"),
        ("content", .null), ("options", .null),
        ("difficulty", .str "medium"), ("topic", .null),
        ("estimated_time", .num 90)],
       [("question_number", .num 2), ("question_id", .str "q3"),
        ("content", .null), ("options", .null),
        ("difficulty", .str "hard"), ("topic", .null),
        ("estimated_time", .num 90)]] }

/-! ## Association-list lemmas -/

theorem lookup_assocSet_self {β : Type} (l : List (String × β)) (k : String) (v : β) :
    List.lookup k (assocSet l k v) = some v := by
  induction l with
  | nil => simp [assocSet, List.lookup]
  | cons hd t ih =>
      obtain ⟨k', v'⟩ := hd
      by_cases h : k' = k
      · simp [assocSet, h, List.lookup]
      · have hbeq : (k == k') = false := by simp [Ne.symm h]
        simp [assocSet, h, List.lookup, hbeq, ih]

theorem lookup_assocSet_ne {β : Type} (l : List (String × β)) (k k' : String) (v : β)
    (h : k ≠ k') : List.lookup k (assocSet l k' v) = List.lookup k l := by
  have hbeq : (k == k') = false := by simp [h]
  induction l with
  | nil => simp [assocSet, List.lookup, hbeq]
  | cons hd t ih =>
      obtain ⟨k₁, v₁⟩ := hd
      by_cases h₁ : k₁ = k'
      · subst h₁
        simp [assocSet, List.lookup, hbeq]
      · simp only [assocSet, h₁, ite_false, List.lookup]
        cases hkk : (k == k₁) <;> simp [hkk, ih]

theorem lookup_dictUpdate_not_mem (d u : Dict) (k : String)
    (h : k ∉ u.map Prod.fst) :
    List.lookup k (dictUpdate d u) = List.lookup k d := by
  induction u generalizing d with
  | nil => simp [dictUpdate]
  | cons hd t ih =>
      obtain ⟨k₁, v₁⟩ := hd
      simp only [List.map_cons, List.mem_cons, not_or] at h
      have step : dictUpdate d ((k₁, v₁) :: t) = dictUpdate (assocSet d k₁ v₁) t := by
        simp [dictUpdate]
      rw [step, ih _ h.2, lookup_assocSet_ne _ _ _ _ h.1]

theorem lookup_dictUpdate_mem (d u : Dict) (k : String) (v : Value)
    (hnd : (u.map Prod.fst).Nodup) (h : List.lookup k u = some v) :
    List.lookup k (dictUpdate d u) = some v := by
  induction u generalizing d with
  | nil => simp [List.lookup] at h
  | cons hd t ih =>
      obtain ⟨k₁, v₁⟩ := hd
      have step : dictUpdate d ((k₁, v₁) :: t) = dictUpdate (assocSet d k₁ v₁) t := by
        simp [dictUpdate]
      simp only [List.map_cons, List.nodup_cons] at hnd
      by_cases hk : k = k₁
      · subst hk
        have hbeq : (k == k) = true := by simp
        simp only [List.lookup, hbeq] at h
        rw [step, lookup_dictUpdate_not_mem _ _ _ hnd.1, lookup_assocSet_self]
        exact h
      · have hbeq : (k == k₁) = false := by simp [hk]
        simp only [List.lookup, hbeq] at h
        rw [step]
        exact ih (assocSet d k₁ v₁) hnd.2 h

/-- Keys of a key-filtered dict are among the original keys. -/
theorem mem_keys_filter {p : String × Value → Bool} {u : Dict} {k : String}
    (h : k ∈ (u.filter p).map Prod.fst) : k ∈ u.map Prod.fst := by
  obtain ⟨⟨k', v'⟩, hmem, rfl⟩ := List.mem_map.mp h
  exact List.mem_map.mpr ⟨(k', v'), (List.mem_filter.mp hmem).1, rfl⟩

/-- Looking a key up in a dict filtered by a key predicate that holds on
`k` gives the original binding. -/
theorem lookup_filter_keys (u : Dict) (k : String) (p : String → Bool)
    (hp : p k = true) :
    List.lookup k (u.filter (fun kv => p kv.1)) = List.lookup k u := by
  induction u with
  | nil => simp
  | cons hd t ih =>
      obtain ⟨k₁, v₁⟩ := hd
      by_cases hk : k = k₁
      · subst hk
        simp [List.filter, hp, List.lookup]
      · have hbeq : (k == k₁) = false := by simp [hk]
        by_cases hpk : p k₁ = true
        · simp [List.filter, hpk, List.lookup, hbeq, ih]
        · simp only [Bool.not_eq_true] at hpk
          simp [List.filter, hpk, List.lookup, hbeq, ih]

/-! ## Claim C9 — API-key validation -/

/-- C9 counterexample: the validator accepts a 20-character key that does
not start with `sk-` (the prefix check in
`validate_and_strip_api_key` only prints a warning), so settings
construction does not reject such keys. -/
theorem claim9_counterexample :
    Config.validate_and_strip_api_key "a2345678901234567890" =
      .ok "a2345678901234567890" ∧
    List.isPrefixOf "sk-".data "a2345678901234567890".data = false := by
  exact ⟨rfl, by decide⟩

/-- C9 (amended): settings construction rejects (raises on) exactly the
keys that are empty or whose stripped form is shorter than 20
characters; a key lacking the `sk-` prefix is only warned about, never
rejected.  Accepted keys are returned stripped, with length ≥ 20. -/
theorem claim9_api_key_validation (v : String) :
    ((v = "" ∨ (pyStrip v).length < 20) →
      ∃ e, Config.validate_and_strip_api_key v = .error e) ∧
    (v ≠ "" → 20 ≤ (pyStrip v).length →
      Config.validate_and_strip_api_key v = .ok (pyStrip v)) := by
  constructor
  · rintro (h | h)
    · refine ⟨"OPENAI_API_KEY cannot be empty", ?_⟩
      simp [Config.validate_and_strip_api_key, h]
    · by_cases hv : v = ""
      · refine ⟨"OPENAI_API_KEY cannot be empty", ?_⟩
        simp [Config.validate_and_strip_api_key, hv]
      · refine ⟨"OPENAI_API_KEY seems too short (length: " ++
          toString (pyStrip v).length ++ "). Please check your .env file.", ?_⟩
        simp [Config.validate_and_strip_api_key, hv, h]
  · intro h1 h2
    simp [Config.validate_and_strip_api_key, h1, Nat.not_lt.mpr h2]

/-- Witness for C9 at a concrete accepted key. -/
theorem claim9_api_key_validation_witness :
    ("sk-12345678901234567890" ≠ "" ∧
      20 ≤ (pyStrip "sk-12345678901234567890").length) ∧
    Config.validate_and_strip_api_key "sk-12345678901234567890" =
      .ok (pyStrip "sk-12345678901234567890") :=
  ⟨⟨by decide, by decide⟩,
    (claim9_api_key_validation "sk-12345678901234567890").2 (by decide) (by decide)⟩

/-! ## Claim C10 — protected profile fields -/

/-- C10: for an existing user, `update_user_profile` leaves the stored
`user_id` and `email` fields unchanged whatever the updates dictionary
contains; keys not supplied are untouched, supplied unprotected keys are
written, and other users' records are untouched. -/
theorem claim10_protected_fields (s : MemoryStore.Store) (user_id : String)
    (updates : Dict) (u : Dict)
    (hu : List.lookup user_id s.users = some u) :
    ∃ u',
      List.lookup user_id
        (UserProfile.update_user_profile s user_id updates).2.users = some u' ∧
      List.lookup "user_id" u' = List.lookup "user_id" u ∧
      List.lookup "email" u' = List.lookup "email" u ∧
      (∀ k, k ∉ updates.map Prod.fst → List.lookup k u' = List.lookup k u) ∧
      ((updates.map Prod.fst).Nodup → ∀ k v, k ≠ "user_id" → k ≠ "email" →
        List.lookup k updates = some v → List.lookup k u' = some v) ∧
      (∀ uid', uid' ≠ user_id →
        List.lookup uid'
          (UserProfile.update_user_profile s user_id updates).2.users =
          List.lookup uid' s.users) := by
  have hstep :
      (UserProfile.update_user_profile s user_id updates).2.users =
        assocSet s.users user_id
          (dictUpdate u (updates.filter (fun kv => kv.1 ∉ ["user_id", "email"]))) := by
    simp [UserProfile.update_user_profile, MemoryStore.Store.update_user, hu]
  have hkeys : ∀ k0, k0 ∈ (["user_id", "email"] : List String) →
      k0 ∉ (updates.filter (fun kv => kv.1 ∉ ["user_id", "email"])).map Prod.fst := by
    intro k0 hk0 hmem
    obtain ⟨⟨k', v'⟩, hmem', rfl⟩ := List.mem_map.mp hmem
    have hpred := (List.mem_filter.mp hmem').2
    simp only [decide_eq_true_eq] at hpred
    exact hpred hk0
  refine ⟨dictUpdate u (updates.filter (fun kv => kv.1 ∉ ["user_id", "email"])),
    ?_, ?_, ?_, ?_, ?_, ?_⟩
  · rw [hstep, lookup_assocSet_self]
  · exact lookup_dictUpdate_not_mem _ _ _ (hkeys "user_id" (by simp))
  · exact lookup_dictUpdate_not_mem _ _ _ (hkeys "email" (by simp))
  · intro k hk
    refine lookup_dictUpdate_not_mem _ _ _ (fun hmem => hk ?_)
    exact mem_keys_filter hmem
  · intro hnd k v hk1 hk2 hlook
    have hp : (decide (k ∉ (["user_id", "email"] : List String))) = true := by
      simp [hk1, hk2]
    have hfilter :
        List.lookup k (updates.filter (fun kv => kv.1 ∉ ["user_id", "email"])) =
          some v := by
      rw [lookup_filter_keys updates k (fun k0 => decide (k0 ∉ ["user_id", "email"])) hp]
      exact hlook
    refine lookup_dictUpdate_mem _ _ _ _ ?_ hfilter
    exact ((List.filter_sublist _).map Prod.fst).nodup hnd
  · intro uid' huid
    rw [hstep, lookup_assocSet_ne _ _ _ _ huid]

/-- Witness for C10 at a concrete store and update dict. -/
theorem claim10_protected_fields_witness :
    List.lookup "u1"
      (MemoryStore.Store.mk
        [("u1", [("user_id", Value.str "u1"), ("email", Value.str "s@x.com"),
          ("name", Value.str "Suzy")])] [] [] [] [] []).users =
      some [("user_id", Value.str "u1"), ("email", Value.str "s@x.com"),
        ("name", Value.str "Suzy")] ∧
    (∃ u',
      List.lookup "u1"
        (UserProfile.update_user_profile
          (MemoryStore.Store.mk
            [("u1", [("user_id", Value.str "u1"), ("email", Value.str "s@x.com"),
              ("name", Value.str "Suzy")])] [] [] [] [] [])
          "u1" [("user_id", Value.str "intruder"), ("name", Value.str "Moe")]).2.users =
        some u' ∧
      List.lookup "user_id" u' =
        List.lookup "user_id" [("user_id", Value.str "u1"),
          ("email", Value.str "s@x.com"), ("name", Value.str "Suzy")] ∧
      List.lookup "email" u' =
        List.lookup "email" [("user_id", Value.str "u1"),
          ("email", Value.str "s@x.com"), ("name", Value.str "Suzy")] ∧
      (∀ k, k ∉ ([("user_id", Value.str "intruder"),
          ("name", Value.str "Moe")] : Dict).map Prod.fst →
        List.lookup k u' =
          List.lookup k [("user_id", Value.str "u1"),
            ("email", Value.str "s@x.com"), ("name", Value.str "Suzy")]) ∧
      ((([("user_id", Value.str "intruder"),
          ("name", Value.str "Moe")] : Dict).map Prod.fst).Nodup →
        ∀ k v, k ≠ "user_id" → k ≠ "email" →
        List.lookup k ([("user_id", Value.str "intruder"),
          ("name", Value.str "Moe")] : Dict) = some v →
        List.lookup k u' = some v) ∧
      (∀ uid', uid' ≠ "u1" →
        List.lookup uid'
          (UserProfile.update_user_profile
            (MemoryStore.Store.mk
              [("u1", [("user_id", Value.str "u1"), ("email", Value.str "s@x.com"),
                ("name", Value.str "Suzy")])] [] [] [] [] [])
            "u1" [("user_id", Value.str "intruder"), ("name", Value.str "Moe")]).2.users =
          List.lookup uid'
            (MemoryStore.Store.mk
              [("u1", [("user_id", Value.str "u1"), ("email", Value.str "s@x.com"),
                ("name", Value.str "Suzy")])] [] [] [] [] []).users)) :=
  ⟨by decide, claim10_protected_fields _ "u1" _ _ (by decide)⟩

/-! ## Claim C8 — upstream model-service error mapping -/

/-- C8: each upstream error class raised inside `process_message`
(authentication, API, other OpenAI, unknown) is caught and mapped to its
fixed user-facing apology plus machine-readable error code, with zero
tool calls reported; the result depends only on the single pipeline call
made (index 0) — the call is never retried. -/
theorem claim8_api_error_mapping
    (attempts : Nat → Except LlmClient.ApiException (String × List String))
    (e : LlmClient.ApiException) (h : attempts 0 = .error e) :
    LlmClient.process_message attempts =
      { message := LlmClient.apologyMessage e,
        error := some e.exmsg,
        error_code := LlmClient.apologyCode e,
        tool_calls_made := 0, tools_used := [] } ∧
    (∀ attempts', attempts' 0 = attempts 0 →
      LlmClient.process_message attempts' = LlmClient.process_message attempts) := by
  constructor
  · cases e with
    | authentication sc msg =>
        simp [LlmClient.process_message, h, LlmClient.apologyMessage,
          LlmClient.apologyCode, LlmClient.ApiException.exmsg]
    | api sc msg =>
        cases sc <;>
          simp [LlmClient.process_message, h, LlmClient.apologyMessage,
            LlmClient.apologyCode, LlmClient.ApiException.exmsg]
    | openai_error msg =>
        simp [LlmClient.process_message, h, LlmClient.apologyMessage,
          LlmClient.apologyCode, LlmClient.ApiException.exmsg]
    | unknown msg =>
        simp [LlmClient.process_message, h, LlmClient.apologyMessage,
          LlmClient.apologyCode, LlmClient.ApiException.exmsg]
  · intro attempts' h'
    simp [LlmClient.process_message, h']

/-- Witness for C8 at a concrete API error with no status code. -/
theorem claim8_api_error_mapping_witness :
    LlmClient.process_message
      (fun _ => .error (LlmClient.ApiException.api none "boom")) =
      { message := LlmClient.apologyMessage (.api none "boom"),
        error := some (LlmClient.ApiException.exmsg (.api none "boom")),
        error_code := LlmClient.apologyCode (.api none "boom"),
        tool_calls_made := 0, tools_used := [] } :=
  (claim8_api_error_mapping
    (fun _ => .error (LlmClient.ApiException.api none "boom"))
    (.api none "boom") rfl).1

/-! ## Claim C7 — tool exceptions are contained -/

/-- The messages produced by one tool round are the incoming messages
followed by one serialized tool message per requested call, in order. -/
theorem executeCalls_messages (env : LlmClient.LoopEnv) (uid : String)
    (msgs : List LlmClient.ChatMsg) (made : List (String × Dict))
    (calls : List LlmClient.ToolCall) :
    (LlmClient.executeCalls env uid msgs made calls).1 =
      msgs ++ calls.map (fun tc =>
        .tool tc.id tc.name (env.dump_json
          (LlmClient.executeTool env.tool_map tc.name
            (LlmClient.fixupArguments uid tc.name (LlmClient.parsedArguments env tc))))) := by
  induction calls generalizing msgs made with
  | nil => simp [LlmClient.executeCalls]
  | cons tc rest ih =>
      have h1 : LlmClient.executeCalls env uid msgs made (tc :: rest) =
          LlmClient.executeCalls env uid
            (msgs ++ [.tool tc.id tc.name (env.dump_json
              (LlmClient.executeTool env.tool_map tc.name
                (LlmClient.fixupArguments uid tc.name (LlmClient.parsedArguments env tc))))])
            (made ++ [(tc.name,
              LlmClient.fixupArguments uid tc.name (LlmClient.parsedArguments env tc))])
            rest := rfl
      rw [h1, ih]
      simp

/-- C7: a raised tool exception never propagates out of the round:
`_execute_tool` converts it into an `{"error": ...}` payload and the loop
appends the serialized payload to the conversation as the call's tool
message, so the turn continues. -/
theorem claim7_tool_errors_contained (env : LlmClient.LoopEnv) (user_id : String)
    (msgs : List LlmClient.ChatMsg) (made : List (String × Dict))
    (calls : List LlmClient.ToolCall) (tc : LlmClient.ToolCall)
    (f : Dict → Except String Value) (e : String)
    (htc : tc ∈ calls)
    (hf : env.tool_map tc.name = some f)
    (herr : f (LlmClient.fixupArguments user_id tc.name
      (LlmClient.parsedArguments env tc)) = .error e) :
    LlmClient.executeTool env.tool_map tc.name
      (LlmClient.fixupArguments user_id tc.name (LlmClient.parsedArguments env tc)) =
      vObj [("error", .str e)] ∧
    LlmClient.ChatMsg.tool tc.id tc.name (env.dump_json (vObj [("error", .str e)])) ∈
      (LlmClient.executeCalls env user_id msgs made calls).1 := by
  have hexec : LlmClient.executeTool env.tool_map tc.name
      (LlmClient.fixupArguments user_id tc.name (LlmClient.parsedArguments env tc)) =
      vObj [("error", .str e)] := by
    simp [LlmClient.executeTool, hf, herr]
  refine ⟨hexec, ?_⟩
  rw [executeCalls_messages]
  refine List.mem_append_right _ ?_
  refine List.mem_map.mpr ⟨tc, htc, ?_⟩
  rw [hexec]

/-- Witness for C7 at a concrete throwing tool call. -/
theorem claim7_tool_errors_contained_witness :
    LlmClient.executeTool wEnv7.tool_map "get_user_profile"
      (LlmClient.fixupArguments "u" "get_user_profile"
        (LlmClient.parsedArguments wEnv7 ⟨"call1", "get_user_profile", "{}"⟩)) =
      vObj [("error", .str "kaboom")] ∧
    LlmClient.ChatMsg.tool "call1" "get_user_profile"
        (wEnv7.dump_json (vObj [("error", .str "kaboom")])) ∈
      (LlmClient.executeCalls wEnv7 "u" [] [] [⟨"call1", "get_user_profile", "{}"⟩]).1 :=
  claim7_tool_errors_contained wEnv7 "u" [] [] _ ⟨"call1", "get_user_profile", "{}"⟩
    (fun _ => .error "kaboom") "kaboom" (by decide) rfl rfl

/-! ## Claim C1 — forced `user_id` injection -/

/-- `find?` on an association list with distinct keys returns the listed
binding. -/
theorem find?_schema_eq {l : List (String × List String)} {k : String}
    {ps : List String} (hnd : (l.map Prod.fst).Nodup) (h : (k, ps) ∈ l) :
    l.find? (fun t => t.1 == k) = some (k, ps) := by
  induction l with
  | nil => cases h
  | cons hd t ih =>
      obtain ⟨k₁, ps₁⟩ := hd
      simp only [List.map_cons, List.nodup_cons] at hnd
      rcases List.mem_cons.mp h with heq | hmem
      · obtain ⟨rfl, rfl⟩ := Prod.mk.injEq k₁ ps₁ k ps ▸ heq.symm
        simp [List.find?]
      · have hne : k₁ ≠ k := by
          intro hc
          exact hnd.1 (hc ▸ List.mem_map.mpr ⟨(k, ps), hmem, rfl⟩)
        have hbeq : (k₁ == k) = false := by simp [hne]
        simp only [List.find?, hbeq]
        exact ih hnd.2 hmem

/-- C1 counterexample: `update_user_profile` is dispatchable through
`_create_tool_map` and its Python signature takes `user_id`, but it is
absent from the `_define_tools` schema, so `_get_function_params` yields
`[]` and the injection block is skipped: a model-supplied foreign
`user_id` reaches the executed tool unchanged. -/
theorem claim1_counterexample :
    ¬ (∀ (user_id function_name : String) (params : List String) (args : Dict),
        (function_name, params) ∈ LlmClient.toolMapPythonParams →
        "user_id" ∈ params →
        List.lookup "user_id"
          (LlmClient.fixupArguments user_id function_name args) =
          some (.str user_id)) := by
  intro hclaim
  have hinst := hclaim "mock-user" "update_user_profile" ["user_id", "updates"]
    [("user_id", Value.str "someone-else")] (by decide) (by decide)
  have hval : List.lookup "user_id"
      (LlmClient.fixupArguments "mock-user" "update_user_profile"
        [("user_id", Value.str "someone-else")]) =
      some (Value.str "someone-else") := by decide
  rw [hval] at hinst
  exact absurd hinst (by decide)

/-- C1 (amended): for every tool declared in the `_define_tools` schema
with a `user_id` parameter, the argument dict actually passed to the
executed tool function carries the caller's `user_id`, regardless of what
the model supplied.  (Functions reachable only through the dispatch map
but absent from the schema receive the model's arguments unchanged —
see `claim1_counterexample`.) -/
theorem claim1_user_id_injection (user_id function_name : String)
    (params : List String) (args : Dict)
    (hschema : (function_name, params) ∈ LlmClient.defineToolsParams)
    (hp : "user_id" ∈ params) :
    List.lookup "user_id" (LlmClient.fixupArguments user_id function_name args) =
      some (.str user_id) := by
  have hnd : (LlmClient.defineToolsParams.map Prod.fst).Nodup := by decide
  have hfp : LlmClient.get_function_params function_name = params := by
    unfold LlmClient.get_function_params
    rw [find?_schema_eq hnd hschema]
  have hcontains :
      (LlmClient.get_function_params function_name).contains "user_id" = true := by
    rw [hfp]
    exact List.elem_eq_true_of_mem hp
  unfold LlmClient.fixupArguments
  rw [if_pos hcontains]
  cases hl : List.lookup "user_id" args with
  | none => simp [lookup_assocSet_self]
  | some v =>
      by_cases hv : v = Value.str user_id
      · simp [hv, hl]
      · simp [hv, lookup_assocSet_self]

/-- Witness for C1 at a concrete schema tool and model-supplied foreign
identity. -/
theorem claim1_user_id_injection_witness :
    ("get_latest_test_results", ["user_id", "test_id"]) ∈
      LlmClient.defineToolsParams ∧
    "user_id" ∈ ["user_id", "test_id"] ∧
    List.lookup "user_id"
      (LlmClient.fixupArguments "mock-user" "get_latest_test_results"
        [("user_id", Value.str "someone-else")]) =
      some (.str "mock-user") :=
  ⟨by decide, by decide,
    claim1_user_id_injection "mock-user" "get_latest_test_results"
      ["user_id", "test_id"] [("user_id", Value.str "someone-else")]
      (by decide) (by decide)⟩

/-! ## Claim C2 — the iteration ceiling -/

/-- With a model stub that always requests tool calls, the loop counter
reaches exactly `max_iterations`. -/
theorem toolLoop_stub_iterations (env : LlmClient.LoopEnv) (uid : String)
    (hstub : ∀ ms, (env.llm ms).finish_reason = "tool_calls") :
    ∀ (n iterations : Nat) (msgs : List LlmClient.ChatMsg)
      (made : List (String × Dict)) (resp : LlmClient.LLMResponse),
      LlmClient.max_iterations - iterations = n →
      iterations ≤ LlmClient.max_iterations →
      resp.finish_reason = "tool_calls" →
      (LlmClient.toolLoop env uid iterations msgs made resp).1 =
        LlmClient.max_iterations := by
  intro n
  induction n with
  | zero =>
      intro iterations msgs made resp hgap hle hfr
      have heq : iterations = LlmClient.max_iterations := by omega
      rw [LlmClient.toolLoop, dif_neg]
      · exact heq
      · rintro ⟨-, hlt⟩
        omega
  | succ n ih =>
      intro iterations msgs made resp hgap hle hfr
      have hlt : iterations < LlmClient.max_iterations := by omega
      rw [LlmClient.toolLoop, dif_pos ⟨hfr, hlt⟩]
      exact ih (iterations + 1) _ _ _ (by omega) (by omega) (hstub _)

/-- C2: when the (stubbed) model answers every request with
`finish_reason = "tool_calls"`, `_process_with_tools` leaves its loop
after exactly `max_iterations = 5` tool-execution iterations; the loop is
a total function of its inputs (no error is raised by ceiling
exhaustion). -/
theorem claim2_iteration_ceiling (env : LlmClient.LoopEnv) (uid : String)
    (msgs0 : List LlmClient.ChatMsg)
    (hstub : ∀ ms, (env.llm ms).finish_reason = "tool_calls") :
    (LlmClient.process_with_tools env uid msgs0).iterations = 5 ∧
    LlmClient.max_iterations = 5 := by
  constructor
  · show (LlmClient.toolLoop env uid 0 msgs0 [] (env.llm msgs0)).1 = 5
    exact toolLoop_stub_iterations env uid hstub
      LlmClient.max_iterations 0 msgs0 [] (env.llm msgs0) rfl
      (Nat.zero_le _) (hstub msgs0)
  · rfl

/-- Witness for C2 at the concrete always-tool-calls stub. -/
theorem claim2_iteration_ceiling_witness :
    (∀ ms, (wEnvStub.llm ms).finish_reason = "tool_calls") ∧
    (LlmClient.process_with_tools wEnvStub "u" []).iterations = 5 :=
  ⟨fun _ => rfl, (claim2_iteration_ceiling wEnvStub "u" [] (fun _ => rfl)).1⟩

/-! ## Claim C5 — submission accuracy -/

/-- The grading loop counts exactly the responses whose answer matches
the stored correct answer of the (first) catalog question they
reference. -/
theorem submitGo_count (fresh : Nat → String) (now_iso : String)
    (questions : List Dict) (uid qid : String) :
    ∀ (responses : List Dict) (idx : Nat) (s : MemoryStore.Store)
      (results : List Dict) (correct : Nat) (time : Int)
      (out : List Dict × Nat × Int × MemoryStore.Store),
      QuizManagement.submitGo fresh now_iso questions uid qid responses idx s
        results correct time = .ok out →
      out.2.1 = correct + countMatching questions responses := by
  intro responses
  induction responses with
  | nil =>
      intro idx s results correct time out h
      simp only [QuizManagement.submitGo, Except.ok.injEq] at h
      subst h
      simp [countMatching]
  | cons r rest ih =>
      intro idx s results correct time out h
      rw [QuizManagement.submitGo] at h
      cases hfind : questions.find?
          (fun q => dget q "question_id" == dget r "question_id") with
      | none =>
          rw [hfind] at h
          have hrec := ih idx s results correct time out h
          rw [hrec]
          simp only [countMatching, List.countP_cons, hfind]
          simp
      | some q =>
          rw [hfind] at h
          cases hts : (dgetD r "time_spent" (.num 0)).asInt? with
          | none => rw [hts] at h; cases h
          | some t =>
              rw [hts] at h
              have hrec := ih (idx + 1) _ _ _ _ out h
              rw [hrec]
              simp only [countMatching, List.countP_cons, hfind]
              by_cases hic : (dget r "answer" == dget q "correct_answer") = true
              · simp [hic]
                omega
              · simp only [Bool.not_eq_true] at hic
                simp [hic]

/-- C5: submitting a non-empty list of `N` responses of which exactly `k`
match the stored correct answers yields `correct_answers = k`,
`total_questions = N`, and `accuracy = k/N*100` rounded to two decimal
places. -/
theorem claim5_accuracy (fresh : Nat → String) (now_iso : String)
    (s : MemoryStore.Store) (uid qid : String) (responses : List Dict)
    (hne : responses ≠ []) :
    ∀ (out : QuizManagement.SubmitResult) (s' : MemoryStore.Store),
      QuizManagement.submit_quiz_response fresh now_iso s uid qid responses =
        .ok (out, s') →
      out.correct_answers = countMatching s.questions responses ∧
      out.total_questions = responses.length ∧
      out.accuracy = pyRound2
        ((countMatching s.questions responses : ℚ) / (responses.length : ℚ) * 100) := by
  intro out s' h
  rw [QuizManagement.submit_quiz_response] at h
  cases hgo : QuizManagement.submitGo fresh now_iso s.questions uid qid
      responses 0 s [] 0 0 with
  | error e => rw [hgo] at h; cases h
  | ok res =>
      obtain ⟨results, total_correct, total_time, sfin⟩ := res
      rw [hgo] at h
      have hcount := submitGo_count fresh now_iso s.questions uid qid
        responses 0 s [] 0 0 _ hgo
      simp only at hcount
      simp only [Except.ok.injEq, Prod.mk.injEq] at h
      obtain ⟨hout, -⟩ := h
      subst hout
      refine ⟨by simpa using hcount, rfl, ?_⟩
      simp only [hne, ne_eq, not_false_iff, if_true]
      rw [hcount]
      simp

/-- Witness for C5: one response matching the stored answer out of one. -/
theorem claim5_accuracy_witness :
    ([[("question_id", Value.str "q1"), ("answer", Value.str "B")]] : List Dict) ≠ [] ∧
    (∀ (out : QuizManagement.SubmitResult) (s' : MemoryStore.Store),
      QuizManagement.submit_quiz_response (fun _ => "rid0") "t0"
        (MemoryStore.Store.mk []
          [[("question_id", Value.str "q1"), ("correct_answer", Value.str "B")]]
          [] [] [] [])
        "u" "qz" [[("question_id", Value.str "q1"), ("answer", Value.str "B")]] =
        .ok (out, s') →
      out.correct_answers =
        countMatching
          [[("question_id", Value.str "q1"), ("correct_answer", Value.str "B")]]
          [[("question_id", Value.str "q1"), ("answer", Value.str "B")]] ∧
      out.total_questions = 1 ∧
      out.accuracy = pyRound2
        ((countMatching
            [[("question_id", Value.str "q1"), ("correct_answer", Value.str "B")]]
            [[("question_id", Value.str "q1"), ("answer", Value.str "B")]] : ℚ) /
          ((1 : ℚ)) * 100)) :=
  ⟨by decide, fun out s' h =>
    claim5_accuracy (fun _ => "rid0") "t0"
      (MemoryStore.Store.mk []
        [[("question_id", Value.str "q1"), ("correct_answer", Value.str "B")]]
        [] [] [] [])
      "u" "qz" [[("question_id", Value.str "q1"), ("answer", Value.str "B")]]
      (by decide) out s' h⟩

/-! ## Claim C3 — "no data found" override -/

/-- One scan step never forgets an already-found test payload. -/
theorem scanStep_test_mono (parse : String → Option Value)
    (acc : Option Value × Option Value) (m : LlmClient.ChatMsg)
    (h : acc.1.isSome) : (LlmClient.scanStep parse acc m).1.isSome := by
  cases m with
  | tool id name content =>
      by_cases hn : name = "get_latest_test_results"
      · simp only [LlmClient.scanStep, hn, if_true]
        cases hq : LlmClient.qualifiesTestPayload (parse content) with
        | none => simpa [Option.orElse, hq] using h
        | some v => simp [Option.orElse, hq]
      · simpa [LlmClient.scanStep, hn] using h
  | system c => exact h
  | user c => exact h
  | assistant c tcs => exact h

/-- If some message of the list qualifies, the scan ends with a test
payload in hand. -/
theorem scanToolData_finds_test (parse : String → Option Value) :
    ∀ (messages : List LlmClient.ChatMsg) (acc : Option Value × Option Value),
      ((∃ m ∈ messages, isQualifyingTestMsg parse m) ∨ acc.1.isSome) →
      (messages.foldl (LlmClient.scanStep parse) acc).1.isSome := by
  intro messages
  induction messages with
  | nil =>
      intro acc h
      rcases h with ⟨m, hm, _⟩ | hs
      · cases hm
      · exact hs
  | cons m rest ih =>
      intro acc h
      rw [List.foldl_cons]
      refine ih _ ?_
      rcases h with ⟨m', hm', hq'⟩ | hs
      · rcases List.mem_cons.mp hm' with rfl | hmem
        · right
          cases m' with
          | tool id name content =>
              obtain ⟨hn, hq⟩ := hq'
              obtain ⟨v, hv⟩ := Option.isSome_iff_exists.mp hq
              simp [LlmClient.scanStep, hn, Option.orElse, hv]
          | system c => cases hq'
          | user c => cases hq'
          | assistant c tcs => cases hq'
        · exact Or.inl ⟨m', hmem, hq'⟩
      · exact Or.inr (scanStep_test_mono parse acc m hs)

/-- C3 (amended): when the model's final text contains a "no data" phrase
and some tool message of the turn is a qualifying successful
`get_latest_test_results` payload, the text is discarded: the validator
returns the quiz template (if a qualifying quiz payload is also present)
or the test-results template, built from the scanned payload; text
without such phrases is always returned unchanged. -/
theorem claim3_no_data_override (parse : String → Option Value)
    (response : String) (messages : List LlmClient.ChatMsg) :
    (LlmClient.containsNoData response = false →
      LlmClient.validateResponseAgainstTools parse response messages = .ok response) ∧
    (LlmClient.containsNoData response = true →
      (∃ m ∈ messages, isQualifyingTestMsg parse m) →
      (∃ q, (LlmClient.scanToolData parse messages).2 = some q ∧
        LlmClient.validateResponseAgainstTools parse response messages =
          .ok (LlmClient.quizCorrected q)) ∨
      (∃ t, (LlmClient.scanToolData parse messages).1 = some t ∧
        LlmClient.validateResponseAgainstTools parse response messages =
          LlmClient.testCorrected t)) := by
  constructor
  · intro h
    simp [LlmClient.validateResponseAgainstTools, h]
  · intro h hex
    have hsome : (LlmClient.scanToolData parse messages).1.isSome :=
      scanToolData_finds_test parse messages (none, none) (Or.inl hex)
    cases hq : (LlmClient.scanToolData parse messages).2 with
    | some q =>
        left
        exact ⟨q, rfl, by simp [LlmClient.validateResponseAgainstTools, h, hq]⟩
    | none =>
        right
        cases ht : (LlmClient.scanToolData parse messages).1 with
        | none => rw [ht] at hsome; cases hsome
        | some t =>
            exact ⟨t, rfl, by simp [LlmClient.validateResponseAgainstTools, h, hq, ht]⟩

set_option maxRecDepth 40000 in
/-- C3 counterexample: with a qualifying successful test payload in the
turn, the validator's replacement text interpolates stored section names
and can itself contain a `no_data_keywords` phrase — the final response
is not free of "no data found" style phrases as claimed. -/
theorem claim3_counterexample :
    (∃ m ∈ ce3msgs, isQualifyingTestMsg ce3parse m) ∧
    (match LlmClient.validateResponseAgainstTools ce3parse
        "You haven\x27t taken a test yet." ce3msgs with
      | .ok out => LlmClient.containsNoData out
      | .error _ => false) = true := by
  constructor
  · refine ⟨.tool "c1" "get_latest_test_results" "PAYLOAD0", ?_, rfl, by decide⟩
    simp [ce3msgs]
  · decide

set_option maxRecDepth 40000 in
/-- Witness for C3 at a concrete phrase-bearing response and qualifying
payload. -/
theorem claim3_no_data_override_witness :
    LlmClient.containsNoData "I couldn\x27t find your results." = true ∧
    (∃ m ∈ w3msgs, isQualifyingTestMsg w3parse m) ∧
    ((∃ q, (LlmClient.scanToolData w3parse w3msgs).2 = some q ∧
      LlmClient.validateResponseAgainstTools w3parse
        "I couldn\x27t find your results." w3msgs = .ok (LlmClient.quizCorrected q)) ∨
    (∃ t, (LlmClient.scanToolData w3parse w3msgs).1 = some t ∧
      LlmClient.validateResponseAgainstTools w3parse
        "I couldn\x27t find your results." w3msgs = LlmClient.testCorrected t)) :=
  ⟨by decide,
    ⟨.tool "c1" "get_latest_test_results" "PAYLOAD1", by simp [w3msgs], rfl, by decide⟩,
    (claim3_no_data_override w3parse "I couldn\x27t find your results." w3msgs).2
      (by decide)
      ⟨.tool "c1" "get_latest_test_results" "PAYLOAD1", by simp [w3msgs], rfl, by decide⟩⟩

/-! ## Claim C6 — fresh-session welcome flow -/

/-- C6 counterexample: a brand-new session (`session_id = None`) for an
unknown user makes `_handle_session_start` fall through to the model
path — `process_message` *is* invoked, and no welcome template is
returned. -/
theorem claim6_counterexample :
    (Orchestrator.handle_message ce6env ce6store "ghost" "hi" none).2.2 = true ∧
    (Orchestrator.handle_message ce6env ce6store "ghost" "hi" none).1.response =
      "model reply" := by
  exact ⟨rfl, rfl⟩

/-- C6 (amended): on a brand-new session (`session_id = None`, fresh
uuid) whose user profile lookup succeeds, the model path
(`process_message`) is never invoked during the call, whatever else
happens; when the two welcome builders raise no exception the returned
envelope is exactly the templated welcome message with the
welcome-screen UI elements, and when either builder raises (e.g. a
blank stored name) the caught exception makes `handle_message` answer
with the generic apology response instead. -/
theorem claim6_welcome_no_llm (env : Orchestrator.OrchEnv)
    (s : MemoryStore.Store) (user_id message : String)
    (hfresh : List.lookup env.new_session_uuid s.conversation_history = none)
    (hprof : ((env.get_user_profile user_id).vget "error").truthy = false) :
    (Orchestrator.handle_message env s user_id message none).2.2 = false ∧
    (∀ w ui,
      Orchestrator.createWelcomeMessage env.get_latest_test_results
        (env.get_user_profile user_id) (env.get_progress_summary user_id) =
          some w →
      Orchestrator.createWelcomeUiElements env.get_latest_test_results
        (env.get_user_profile user_id) (env.get_progress_summary user_id) =
          some ui →
      Orchestrator.handle_message env s user_id message none =
        ({ session_id := env.new_session_uuid, response := w, error := none,
           follow_ups := ["What would you like to work on today?"],
           tools_used := ["get_user_profile", "get_progress_summary"],
           ui_elements := some ui,
           metadata := vObj [("timestamp", .str env.now_iso),
             ("tool_calls_made", .num 2), ("is_welcome", .bool true)] },
         Orchestrator.saveMessage env s env.new_session_uuid "assistant" w none,
         false)) ∧
    (Orchestrator.createWelcomeMessage env.get_latest_test_results
        (env.get_user_profile user_id) (env.get_progress_summary user_id) =
          none →
      (Orchestrator.handle_message env s user_id message none).1.response =
        "I apologize, but I encountered an issue. Could you please rephrase your question?") ∧
    (∀ w,
      Orchestrator.createWelcomeMessage env.get_latest_test_results
        (env.get_user_profile user_id) (env.get_progress_summary user_id) =
          some w →
      Orchestrator.createWelcomeUiElements env.get_latest_test_results
        (env.get_user_profile user_id) (env.get_progress_summary user_id) =
          none →
      (Orchestrator.handle_message env s user_id message none).1.response =
        "I apologize, but I encountered an issue. Could you please rephrase your question?") := by
  have hhist : Orchestrator.getFormattedHistory s env.new_session_uuid = [] := by
    simp [Orchestrator.getFormattedHistory,
      MemoryStore.Store.get_conversation_history, hfresh]
  refine ⟨?_, ?_, ?_, ?_⟩
  · cases hcw : Orchestrator.createWelcomeMessage env.get_latest_test_results
        (env.get_user_profile user_id) (env.get_progress_summary user_id) with
    | none =>
        simp [Orchestrator.handle_message, Orchestrator.handleSessionStart,
          hhist, hprof, hcw]
    | some w =>
        cases hcui : Orchestrator.createWelcomeUiElements env.get_latest_test_results
            (env.get_user_profile user_id) (env.get_progress_summary user_id) with
        | none =>
            simp [Orchestrator.handle_message, Orchestrator.handleSessionStart,
              hhist, hprof, hcw, hcui]
        | some ui =>
            simp [Orchestrator.handle_message, Orchestrator.handleSessionStart,
              hhist, hprof, hcw, hcui]
  · intro w ui hw hui
    simp [Orchestrator.handle_message, Orchestrator.handleSessionStart,
      hhist, hprof, hw, hui]
  · intro hw
    simp [Orchestrator.handle_message, Orchestrator.handleSessionStart,
      hhist, hprof, hw]
  · intro w hw hui
    simp [Orchestrator.handle_message, Orchestrator.handleSessionStart,
      hhist, hprof, hw, hui]

set_option maxRecDepth 40000 in
/-- Witness for C6 at two concrete fresh sessions whose profile exists:
one whose builders succeed (the welcome envelope is returned) and one
with a blank stored name (the apology is returned); the model is invoked
in neither. -/
theorem claim6_welcome_no_llm_witness :
    ((w6env.get_user_profile "u1").vget "error").truthy = false ∧
    Orchestrator.handle_message w6env w6store "u1" "hello" none =
      ({ session_id := w6env.new_session_uuid, response := w6welcome, error := none,
         follow_ups := ["What would you like to work on today?"],
         tools_used := ["get_user_profile", "get_progress_summary"],
         ui_elements := some w6ui,
         metadata := vObj [("timestamp", .str w6env.now_iso),
           ("tool_calls_made", .num 2), ("is_welcome", .bool true)] },
       Orchestrator.saveMessage w6env w6store w6env.new_session_uuid
         "assistant" w6welcome none,
       false) ∧
    ((w6blankEnv.get_user_profile "u1").vget "error").truthy = false ∧
    (Orchestrator.handle_message w6blankEnv w6store "u1" "hello" none).1.response =
      "I apologize, but I encountered an issue. Could you please rephrase your question?" ∧
    (Orchestrator.handle_message w6blankEnv w6store "u1" "hello" none).2.2 = false :=
  ⟨by decide,
   (claim6_welcome_no_llm w6env w6store "u1" "hello" rfl (by decide)).2.1
     w6welcome w6ui (by decide) (by decide),
   by decide,
   (claim6_welcome_no_llm w6blankEnv w6store "u1" "hello" rfl (by decide)).2.2.1
     (by decide),
   (claim6_welcome_no_llm w6blankEnv w6store "u1" "hello" rfl (by decide)).1⟩

/-! ## Claim C4 — quiz size and uniqueness -/

/-- Subpermutations are preserved by `map`. -/
theorem subperm_map {α β : Type} (f : α → β) {l₁ l₂ : List α}
    (h : l₁.Subperm l₂) : (l₁.map f).Subperm (l₂.map f) := by
  obtain ⟨l, hperm, hsub⟩ := h
  exact ⟨l.map f, hperm.map f, hsub.map f⟩

/-- A subpermutation of a duplicate-free list is duplicate-free. -/
theorem subperm_nodup {α : Type} {l₁ l₂ : List α}
    (h : l₁.Subperm l₂) (hnd : l₂.Nodup) : l₁.Nodup := by
  obtain ⟨l, hperm, hsub⟩ := h
  exact hperm.nodup (hsub.nodup hnd)

/-- Each optional filter stage shrinks the question list. -/
theorem applyKeyFilter_sublist (qs : List Dict) (o : Option Value)
    (p : Value → Dict → Bool) :
    (MemoryStore.applyKeyFilter qs o p).Sublist qs := by
  cases o with
  | none => exact List.Sublist.refl _
  | some v => exact List.filter_sublist _

/-- `get_questions` returns a sublist of the stored catalog. -/
theorem get_questions_sublist (s : MemoryStore.Store) (filters : Dict)
    (limit : Nat) :
    (s.get_questions filters limit).Sublist s.questions := by
  unfold MemoryStore.Store.get_questions
  exact (List.take_sublist _ _).trans ((applyKeyFilter_sublist _ _ _).trans
    ((applyKeyFilter_sublist _ _ _).trans ((applyKeyFilter_sublist _ _ _).trans
      (applyKeyFilter_sublist _ _ _))))

/-- The candidate pool is a sublist of the stored catalog. -/
theorem computeAllQuestions_sublist (s : MemoryStore.Store)
    (test_type sectionV : Value) :
    (QuizManagement.computeAllQuestions s test_type sectionV).Sublist s.questions := by
  unfold QuizManagement.computeAllQuestions
  dsimp only
  split <;> split <;> exact get_questions_sublist _ _ _

/-- The recent-exclusion stage yields a sublist of the pool. -/
theorem computeAvailableBase_sublist (all_questions : List Dict)
    (recent_question_ids : List Value) (quiz_size : Int) :
    (QuizManagement.computeAvailableBase all_questions recent_question_ids
      quiz_size).Sublist all_questions := by
  unfold QuizManagement.computeAvailableBase
  dsimp only
  split
  · exact List.Sublist.refl _
  · exact List.filter_sublist _

/-- The topic-prioritization stage yields a sublist of its input. -/
theorem prioritizeTopics_sublist (available₁ : List Dict)
    (target_topics : Value) :
    (QuizManagement.prioritizeTopics available₁ target_topics).Sublist available₁ := by
  unfold QuizManagement.prioritizeTopics
  dsimp only
  split
  · split
    · exact List.filter_sublist _
    · exact List.Sublist.refl _
  · exact List.Sublist.refl _

/-- Draws from three mutually exclusive filters of `l`, topped up with a
draw from a filter excluding everything already drawn, form a
subpermutation of `l`. -/
theorem subperm_of_parts {α : Type} [DecidableEq α] {l s1 s2 s3 s4 : List α}
    {p1 p2 p3 p4 : α → Bool}
    (hex12 : ∀ x, p1 x = true → p2 x = false)
    (hex13 : ∀ x, p1 x = true → p3 x = false)
    (hex23 : ∀ x, p2 x = true → p3 x = false)
    (hp4 : ∀ x, x ∈ s1 ++ s2 ++ s3 → p4 x = false)
    (h1 : s1.Subperm (l.filter p1)) (h2 : s2.Subperm (l.filter p2))
    (h3 : s3.Subperm (l.filter p3)) (h4 : s4.Subperm (l.filter p4)) :
    (s1 ++ s2 ++ s3 ++ s4).Subperm l := by
  rw [List.subperm_ext_iff]
  intro x hx
  have c1 := h1.count_le x
  have c2 := h2.count_le x
  have c3 := h3.count_le x
  have c4 := h4.count_le x
  have hfle : ∀ p : α → Bool, List.count x (l.filter p) ≤ List.count x l :=
    fun p => ((List.filter_sublist l).subperm).count_le x
  simp only [List.count_append]
  by_cases hmem : x ∈ s1 ++ s2 ++ s3
  · have h4z : List.count x (l.filter p4) = 0 := by
      apply List.count_eq_zero_of_not_mem
      intro hmem'
      have hp := (List.mem_filter.mp hmem').2
      rw [hp4 x hmem] at hp
      cases hp
    rw [h4z] at c4
    by_cases hp1 : p1 x = true
    · have e2 : List.count x (l.filter p2) = 0 := by
        apply List.count_eq_zero_of_not_mem
        intro hm
        have := (List.mem_filter.mp hm).2
        rw [hex12 x hp1] at this
        cases this
      have e3 : List.count x (l.filter p3) = 0 := by
        apply List.count_eq_zero_of_not_mem
        intro hm
        have := (List.mem_filter.mp hm).2
        rw [hex13 x hp1] at this
        cases this
      have := hfle p1
      omega
    · have e1 : List.count x (l.filter p1) = 0 := by
        apply List.count_eq_zero_of_not_mem
        intro hm
        have := (List.mem_filter.mp hm).2
        simp [this] at hp1
      by_cases hp2 : p2 x = true
      · have e3 : List.count x (l.filter p3) = 0 := by
          apply List.count_eq_zero_of_not_mem
          intro hm
          have := (List.mem_filter.mp hm).2
          rw [hex23 x hp2] at this
          cases this
        have := hfle p2
        omega
      · have e2 : List.count x (l.filter p2) = 0 := by
          apply List.count_eq_zero_of_not_mem
          intro hm
          have := (List.mem_filter.mp hm).2
          simp [this] at hp2
        have := hfle p3
        omega
  · have hz1 : List.count x s1 = 0 :=
      List.count_eq_zero_of_not_mem (fun hm => hmem (by simp [hm]))
    have hz2 : List.count x s2 = 0 :=
      List.count_eq_zero_of_not_mem (fun hm => hmem (by simp [hm]))
    have hz3 : List.count x s3 = 0 :=
      List.count_eq_zero_of_not_mem (fun hm => hmem (by simp [hm]))
    have := hfle p4
    omega

/-- Specification of one bucket draw: the result is a subpermutation of
the bucket with at most `k` elements. -/
theorem bucket_sample_spec
    (sample : Int → List Dict → Except String (List Dict))
    (hsample : ∀ k l out, 0 ≤ k → k ≤ (l.length : Int) → sample k l = .ok out →
      out.Subperm l ∧ (out.length : Int) = k)
    (k : Int) (hk : 0 ≤ k) (bucket : List Dict) (out : List Dict)
    (h : (if bucket ≠ [] then sample (min k (bucket.length : Int)) bucket
          else .ok []) = .ok out) :
    out.Subperm bucket ∧ (out.length : Int) ≤ k := by
  by_cases hb : bucket ≠ []
  · rw [if_pos hb] at h
    obtain ⟨hsub, hlen⟩ := hsample _ _ _
      (le_min hk (Int.natCast_nonneg _)) (min_le_right _ _) h
    exact ⟨hsub, by rw [hlen]; exact min_le_left _ _⟩
  · rw [if_neg hb] at h
    obtain rfl := Except.ok.inj h
    exact ⟨List.nil_subperm, by simpa using hk⟩

/-- Specification of `selectQuestions`: a successful selection is a
subpermutation of the available questions of size at most `quiz_size`
(for nonnegative sizes). -/
theorem selectQuestions_spec
    (sample : Int → List Dict → Except String (List Dict))
    (hsample : ∀ k l out, 0 ≤ k → k ≤ (l.length : Int) → sample k l = .ok out →
      out.Subperm l ∧ (out.length : Int) = k)
    (quiz_size : Int) (hq : 0 ≤ quiz_size) (available : List Dict)
    (sel : List Dict)
    (h : QuizManagement.selectQuestions sample quiz_size available = .ok sel) :
    sel.Subperm available ∧ (sel.length : Int) ≤ quiz_size := by
  have hne0 : 0 ≤ pyTruncDiv (quiz_size * 3) 10 :=
    Int.tdiv_nonneg (by omega) (by norm_num)
  have hnm0 : 0 ≤ pyTruncDiv (quiz_size * 5) 10 :=
    Int.tdiv_nonneg (by omega) (by norm_num)
  have hsum : pyTruncDiv (quiz_size * 3) 10 + pyTruncDiv (quiz_size * 5) 10 ≤
      quiz_size := by
    have h3 := Int.tmod_add_tdiv (quiz_size * 3) 10
    have h5 := Int.tmod_add_tdiv (quiz_size * 5) 10
    have hm3 : 0 ≤ (quiz_size * 3).tmod 10 := Int.tmod_nonneg _ (by omega)
    have hm5 : 0 ≤ (quiz_size * 5).tmod 10 := Int.tmod_nonneg _ (by omega)
    unfold pyTruncDiv
    omega
  have hex12 : ∀ x : Dict, (decide (dget x "difficulty" = Value.str "easy")) = true →
      (decide (dget x "difficulty" = Value.str "medium")) = false := by
    intro x hx
    simp only [decide_eq_true_eq] at hx
    simp [hx]
  have hex13 : ∀ x : Dict, (decide (dget x "difficulty" = Value.str "easy")) = true →
      (decide (dget x "difficulty" = Value.str "hard")) = false := by
    intro x hx
    simp only [decide_eq_true_eq] at hx
    simp [hx]
  have hex23 : ∀ x : Dict, (decide (dget x "difficulty" = Value.str "medium")) = true →
      (decide (dget x "difficulty" = Value.str "hard")) = false := by
    intro x hx
    simp only [decide_eq_true_eq] at hx
    simp [hx]
  unfold QuizManagement.selectQuestions at h
  dsimp only at h
  split at h
  case _ se sm sh hse hsm hsh =>
    obtain ⟨hseS, hseL⟩ := bucket_sample_spec sample hsample _ hne0 _ _ hse
    obtain ⟨hsmS, hsmL⟩ := bucket_sample_spec sample hsample _ hnm0 _ _ hsm
    obtain ⟨hshS, hshL⟩ := bucket_sample_spec sample hsample _ (by omega) _ _ hsh
    have hp4 : ∀ x ∈ se ++ sm ++ sh,
        (fun q => decide (¬ (se ++ sm ++ sh).contains q = true)) x = false := by
      intro x hm
      have hel := List.elem_eq_true_of_mem hm
      simp only [decide_eq_false_iff_not, not_not, List.contains]
      exact hel
    split at h
    · -- fill branch
      rename_i hlt
      split at h
      · rename_i sf hsf
        obtain rfl := Except.ok.inj h
        obtain ⟨hsfS, hsfL⟩ := hsample _ _ _
          (le_min (by omega) (Int.natCast_nonneg _))
          (min_le_right _ _) hsf
        constructor
        · exact subperm_of_parts hex12 hex13 hex23 hp4 hseS hsmS hshS hsfS
        · have hmin : (sf.length : Int) ≤
              quiz_size - ((se ++ sm ++ sh).length : Int) := by
            rw [hsfL]
            exact min_le_left _ _
          simp only [List.length_append] at hmin ⊢
          push_cast at hmin ⊢
          omega
      · exact absurd h (by simp)
    · -- no fill: the buckets already reached the cap
      rename_i hge
      obtain rfl := Except.ok.inj h
      constructor
      · have := subperm_of_parts hex12 hex13 hex23 hp4 hseS hsmS hshS
          (List.nil_subperm (l := available.filter
            (fun q => decide (¬ (se ++ sm ++ sh).contains q = true))))
        simpa using this
      · simp only [List.length_append]
        push_cast
        omega
  case _ e he => exact absurd h (by simp)
  case _ e he => exact absurd h (by simp)
  case _ e he => exact absurd h (by simp)

/-- Projecting the selected questions into payload entries keeps exactly
their `question_id`s, in order. -/
theorem proj_question_ids (l : List Dict) :
    (l.enum.map (fun iq =>
      ([("question_number", Value.num ((iq.1 : Int) + 1)),
        ("question_id", dget iq.2 "question_id"),
        ("content", dget iq.2 "content"),
        ("options", dget iq.2 "options"),
        ("difficulty", dget iq.2 "difficulty"),
        ("topic", dget iq.2 "topic"),
        ("estimated_time", dgetD iq.2 "average_time" (.num 90))] : Dict))).map
      (fun q => dget q "question_id") =
    l.map (fun q => dget q "question_id") := by
  rw [List.map_map]
  have hfun : ((fun q => dget q "question_id") ∘ (fun iq : Nat × Dict =>
      ([("question_number", Value.num ((iq.1 : Int) + 1)),
        ("question_id", dget iq.2 "question_id"),
        ("content", dget iq.2 "content"),
        ("options", dget iq.2 "options"),
        ("difficulty", dget iq.2 "difficulty"),
        ("topic", dget iq.2 "topic"),
        ("estimated_time", dgetD iq.2 "average_time" (.num 90))] : Dict))) =
      (fun iq : Nat × Dict => dget iq.2 "question_id") := by
    funext iq
    rfl
  rw [hfun]
  conv_rhs => rw [← List.enum_map_snd l, List.map_map]
  rfl

/-- **C4 (amended).** For a *nonnegative* requested size `n`, under the
`random.sample` contract (for `0 ≤ k ≤ len l` it returns `k` distinct
elements of `l`), the `random.shuffle` contract (a permutation), and a
catalog with pairwise distinct `question_id`s, a successful
`generate_adaptive_quiz` returns at most `n` questions and no
`question_id` appears more than once among them.  (The original claim,
quantified over *every* configuration, is refuted by
`claim4_counterexample`: a negative size succeeds with 0 questions,
which is not at most the requested size.) -/
theorem claim4_quiz_size_nodup
    (sample : Int → List Dict → Except String (List Dict))
    (shuffle : List Dict → List Dict)
    (new_quiz_id now_iso : String) (s : MemoryStore.Store)
    (user_id : String) (config : Dict) (n : Int)
    (hsample : ∀ k l out, 0 ≤ k → k ≤ (l.length : Int) → sample k l = .ok out →
      out.Subperm l ∧ (out.length : Int) = k)
    (hshuffle : ∀ l : List Dict, (shuffle l).Perm l)
    (hnodup : (s.questions.map (fun q => dget q "question_id")).Nodup)
    (hq : (dgetD config "size" (Value.num 20)).asInt? = some n)
    (hn : 0 ≤ n)
    (r : QuizManagement.GenSuccess) (s2 : MemoryStore.Store)
    (h : QuizManagement.generate_adaptive_quiz sample shuffle new_quiz_id
      now_iso s user_id config = .ok (.success r, s2)) :
    (r.questions.length : Int) ≤ n ∧
      (r.questions.map (fun q => dget q "question_id")).Nodup := by
  unfold QuizManagement.generate_adaptive_quiz at h
  split at h
  · exact absurd h (by simp)
  · rename_i user huser
    dsimp only at h
    split at h
    · exact absurd h (by simp)
    · rename_i qs hqs
      rw [hq] at hqs
      obtain rfl := Option.some.inj hqs
      split at h
      · exact absurd h (by simp)
      · rename_i hne
        split at h
        · exact absurd h (by simp)
        · rename_i selected hsel
          obtain ⟨hsubp, hlen⟩ := selectQuestions_spec sample hsample n hn _ _ hsel
          have hchain : selected.Subperm s.questions :=
            hsubp.trans (((prioritizeTopics_sublist _ _).trans
              ((computeAvailableBase_sublist _ _ _).trans
                (computeAllQuestions_sublist _ _ _))).subperm)
          have hshufsub : (shuffle selected).Subperm s.questions :=
            (hshuffle selected).subperm.trans hchain
          have hidnodup :
              ((shuffle selected).map (fun q => dget q "question_id")).Nodup :=
            subperm_nodup (subperm_map _ hshufsub) hnodup
          split at h
          · exact absurd h (by simp)
          · rename_i focus_areas hfocus
            simp only [Except.ok.injEq, Prod.mk.injEq,
              QuizManagement.GenResult.success.injEq] at h
            obtain ⟨hr, hs2⟩ := h
            subst hr
            constructor
            · dsimp only
              rw [List.length_map, List.enum_length,
                (hshuffle selected).length_eq]
              exact le_trans (by exact_mod_cast le_refl _) hlen
            · dsimp only
              rw [proj_question_ids]
              exact hidnodup

set_option maxRecDepth 40000 in
/-- **C4, counterexample.**  The claim quantifies over *every* quiz
configuration with a requested size.  For the configuration
`{"size": -1}` (requested size `-1`) on a store whose catalog has no
easy/medium/hard question, `generate_adaptive_quiz` *succeeds* with an
empty quiz, and `0 ≤ -1` is false: the result does not contain at most
`n` questions. -/
theorem claim4_counterexample :
    QuizManagement.generate_adaptive_quiz ce4sample (fun l => l) "qz" "t"
        ce4store "u" [("size", Value.num (-1))] =
      .ok (.success ce4success,
        ce4store.save_quiz "qz" ⟨"qz", "u", "t", []⟩) ∧
    (dgetD [("size", Value.num (-1))] "size" (Value.num 20)).asInt? =
      some (-1) ∧
    ¬ ((ce4success.questions.length : Int) ≤ -1) := by
  exact ⟨rfl, by decide, by decide⟩

/-- The take-based sampler `ce4sample` satisfies the `random.sample`
contract. -/
theorem ce4sample_spec : ∀ (k : Int) (l out : List Dict), 0 ≤ k →
    k ≤ (l.length : Int) → ce4sample k l = .ok out →
    out.Subperm l ∧ (out.length : Int) = k := by
  intro k l out hk hkl h
  unfold ce4sample at h
  rw [if_pos ⟨hk, hkl⟩] at h
  obtain rfl := Except.ok.inj h
  refine ⟨(List.take_sublist _ _).subperm, ?_⟩
  rw [List.length_take]
  omega

set_option maxRecDepth 40000 in
/-- **C4, witness.**  On `w4store` with requested size `2`, the quiz
produced holds `2 ≤ 2` questions with distinct ids. -/
theorem claim4_quiz_size_nodup_witness :
    (w4success.questions.length : Int) ≤ 2 ∧
      (w4success.questions.map (fun q => dget q "question_id")).Nodup :=
  claim4_quiz_size_nodup ce4sample (fun l => l) "qz" "t" w4store "u"
    [("size", Value.num 2)] 2 ce4sample_spec (fun l => List.Perm.refl l)
    (by decide) (by decide) (by decide) w4success
    (w4store.save_quiz "qz" ⟨"qz", "u", "t",
      [[("question_id", .str "q2"), ("difficulty", .str "medium")],
       [("question_id", .str "q3"), ("difficulty", .str "hard")]]⟩) rfl
